import Mathlib

/-!
Shallow embedding of the data-consistency core of the `ci_gestao` repository
(`src/app/utils/validators.py`, `src/app/utils/import_functions.py`,
`src/app/models.py`, `src/app/services/ci_service.py`,
`src/app/services/alert_service.py`), together with theorems settling the
claims about its specification.

Modelling conventions:
* Python strings are Lean `String`s (in this toolchain a `String` is a
  structure around a `List Char`, so list-level reasoning is definitional).
* Python `float` results of the money normaliser are modelled as exact
  rationals `ℚ`; every monetary value appearing in the claims is a two-digit
  decimal that round-trips exactly through both representations.
* `datetime.date` values are modelled by `PyDate` (proleptic Gregorian
  year/month/day) with Python's `toordinal`/`fromordinal` arithmetic.
* Database rows are records in lists held by a `DB` structure; SQLAlchemy's
  session semantics are modelled by explicit state passing, and `commit`
  checks the declared unique constraint of `numeros_cadastro`
  (`UniqueConstraint('nc', 'ativo', 'colaborador_id')`, models.py line 416),
  rolling the state back and turning the `IntegrityError` into a
  `ValidacaoError` exactly as the services' `except Exception` blocks do.
-/

namespace CIGestao


/-! ## Python string primitives -/

/-- Numeric value of a digit character. -/
def charVal (c : Char) : Nat := c.toNat - '0'.toNat

/-- `''.join(filter(str.isdigit, s))` — keep only the digit characters. -/
def pyDigits (s : String) : List Char := s.toList.filter Char.isDigit

/-- `str.strip()` on a character list: drop leading and trailing whitespace. -/
def stripChars (l : List Char) : List Char :=
  ((l.dropWhile Char.isWhitespace).reverse.dropWhile Char.isWhitespace).reverse

/-- `str.strip()` on a `String`. -/
def pyStrip (s : String) : String := String.mk (stripChars s.toList)

/-- Value of a digit string read left to right (base 10). -/
def natOfDigits (l : List Char) : Nat := l.foldl (fun acc c => acc * 10 + charVal c) 0

/-- Recursion core of `replaceAll`: each step consumes at least one
character, so `fuel = l.length` always suffices. -/
def replaceAllFuel (p : Char) (ps rep : List Char) : Nat → List Char → List Char
  | 0, l => l
  | _ + 1, [] => []
  | fuel + 1, c :: rest =>
    if (p :: ps).isPrefixOf (c :: rest) then
      rep ++ replaceAllFuel p ps rep fuel (rest.drop ps.length)
    else
      c :: replaceAllFuel p ps rep fuel rest

/-- Python `str.replace(pat, rep)`: leftmost, non-overlapping replacement of
every occurrence of the non-empty pattern `p :: ps` by `rep`. -/
def replaceAll (p : Char) (ps rep l : List Char) : List Char :=
  replaceAllFuel p ps rep l.length l

/-- `x.lstrip('0')` — drop leading zero characters. -/
def lstripZeros (l : List Char) : List Char := l.dropWhile (· = '0')

/-- Python `int(s)`: optional sign followed by at least one digit
(surrounding whitespace stripped); anything else raises `ValueError`,
modelled as `none`. -/
def pyInt? (l : List Char) : Option Int :=
  match stripChars l with
  | [] => none
  | c :: ds =>
    if c = '+' then
      if ds ≠ [] ∧ ds.all Char.isDigit then some (natOfDigits ds : Int) else none
    else if c = '-' then
      if ds ≠ [] ∧ ds.all Char.isDigit then some (-(natOfDigits ds : Int)) else none
    else if (c :: ds).all Char.isDigit then some (natOfDigits (c :: ds) : Int)
    else none

/-- Fractional part contributed by the digits after the decimal point. -/
def fracOfDigits (l : List Char) : ℚ := (natOfDigits l : ℚ) / (10 ^ l.length)

/-- Unsigned decimal literal `digits[.digits]` (at least one digit overall),
the only shapes the money normaliser below feeds to Python's `float`. -/
def pyFloatUnsigned? (l : List Char) : Option ℚ :=
  let ip := l.takeWhile (· ≠ '.')
  match l.dropWhile (· ≠ '.') with
  | [] => if ip ≠ [] ∧ ip.all Char.isDigit then some (natOfDigits ip : ℚ) else none
  | _ :: fp =>
    if fp.contains '.' then none
    else if (ip ≠ [] ∨ fp ≠ []) ∧ ip.all Char.isDigit ∧ fp.all Char.isDigit then
      some ((natOfDigits ip : ℚ) + fracOfDigits fp)
    else none

/-- Python `float(s)` on the decimal literals produced by the money
normaliser (optional sign, digits, optional fractional part). -/
def pyFloat? (l : List Char) : Option ℚ :=
  match stripChars l with
  | [] => none
  | c :: r =>
    if c = '+' then pyFloatUnsigned? r
    else if c = '-' then (pyFloatUnsigned? r).map (fun q => -q)
    else pyFloatUnsigned? (c :: r)

/-! ## validators.py — tax IDs, assignment codes, company codes -/

/-- `is_valid_cpf` (validators.py lines 46-91): strip non-digits, require 11
digits, reject the constant string, and check the two mod-11 digits computed
by the two `for` loops (`soma += int(cpf[i]) * (10 - i)` for `i < 9`, then
`soma += int(cpf[i]) * (11 - i)` for `i < 10`). -/
def is_valid_cpf (cpf : String) : Bool :=
  if cpf = "" then false
  else
    let ds := pyDigits cpf
    if ds.length ≠ 11 then false
    else if ds = List.replicate 11 (ds.headD '0') then false
    else
      let dv := ds.map charVal
      let soma1 := ((List.range 9).map fun i => dv.getD i 0 * (10 - i)).sum
      let digito1 := if soma1 % 11 < 2 then 0 else 11 - soma1 % 11
      let soma2 := ((List.range 10).map fun i => dv.getD i 0 * (11 - i)).sum
      let digito2 := if soma2 % 11 < 2 then 0 else 11 - soma2 % 11
      dv.getD 9 0 == digito1 && dv.getD 10 0 == digito2

/-- `clean_cpf` (validators.py lines 194-227): strip, keep digits, require
exactly 11, validate via `is_valid_cpf`. -/
def clean_cpf (cpf : String) : Option String :=
  if cpf = "" then none
  else
    let cpfLimpo := String.mk (pyDigits (pyStrip cpf))
    if cpfLimpo.length ≠ 11 then none
    else if ¬ is_valid_cpf cpfLimpo then none
    else some cpfLimpo

/-- The spec's phrasing of one mod-11 check digit: multiply the digits by
the descending weight list, sum, take the remainder mod 11; a remainder
below 2 gives digit 0, otherwise `11 - remainder`. -/
def specCheckDigit (ds ws : List Nat) : Nat :=
  let soma := (List.zipWith (· * ·) ds ws).sum
  if soma % 11 < 2 then 0 else 11 - soma % 11

/-- `is_valid_nc` (validators.py lines 141-164): strip, require only digits
(`^[0-9]+$`), length between 1 and 20. -/
def is_valid_nc (nc : String) : Bool :=
  if nc = "" then false
  else
    let s := stripChars nc.toList
    if ¬ (s ≠ [] ∧ s.all Char.isDigit) then false
    else if s.length < 1 ∨ s.length > 20 then false
    else true

/-- `clean_nc` (validators.py lines 230-254): strip, keep digits, validate,
then `lstrip('0') or '0'`. -/
def clean_nc (nc : String) : Option String :=
  if nc = "" then none
  else
    let ncLimpo := String.mk (pyDigits (pyStrip nc))
    if ncLimpo = "" ∨ ¬ is_valid_nc ncLimpo then none
    else if lstripZeros ncLimpo.toList = [] then some "0"
    else some (String.mk (lstripZeros ncLimpo.toList))

/-- `clean_empresa` (validators.py lines 257-280): strip, keep digits, then
require membership in the configured `VALID_COMPANY_CODES`. -/
def clean_empresa (validCodes : List String) (codigo : String) : Option String :=
  if codigo = "" then none
  else
    let limpo := String.mk (pyDigits (pyStrip codigo))
    if limpo = "" ∨ ¬ validCodes.contains limpo then none
    else some limpo

/-- `VALID_COMPANY_CODES` keys from src/config.py lines 183-187. -/
def validCompanyCodes : List String := ["106", "110", "170"]

/-! ## validators.py — `clean_valor_monetario` -/

/-- `clean_valor_monetario` (validators.py lines 378-455). The stages follow
the source exactly: strip; drop `R$` and `$`; strip; unquote a leading
`="..."`; then branch on which of comma/dot occur; finally Python's
`int`/`float` conversions, with every raised `ValueError` caught and turned
into `0.0` by the source's `try`/`except` blocks (modelled by the `none`
branches). `float` results are modelled as exact rationals. -/
def clean_valor_monetario (valor : String) : ℚ :=
  if valor = "" then 0
  else
    let v0 := stripChars valor.toList
    let v1 := stripChars (replaceAll '$' [] [] (replaceAll 'R' ['$'] [] v0))
    let v2 :=
      if ['=', '"'].isPrefixOf v1 ∧ v1.getLast? = some '"' then (v1.drop 2).dropLast else v1
    let temVirgula := v2.contains ','
    let temPonto := v2.contains '.'
    if ¬ temVirgula ∧ ¬ temPonto then
      match pyInt? v2 with
      | some n => if 100 ≤ n.natAbs then (n : ℚ) / 100 else (n : ℚ)
      | none => 0
    else
      let v3 :=
        if temVirgula ∧ temPonto then
          replaceAll ',' [] ['.'] (replaceAll '.' [] [] v2)
        else if temVirgula then
          replaceAll ',' [] ['.'] v2
        else
          let parts := List.splitOn '.' v2
          if parts.length = 2 then
            if (parts.getD 1 []).length ≤ 2 then v2
            else replaceAll '.' [] [] v2
          else replaceAll '.' [] [] v2
      if v3 = [] then 0
      else match pyFloat? v3 with
        | some q => q
        | none => 0

/-! ## Python dates (`datetime.date`, proleptic Gregorian calendar) -/

structure PyDate where
  year : Int
  month : Nat
  day : Nat
deriving DecidableEq, Repr

def isLeapYear (y : Int) : Bool := y % 4 = 0 ∧ (y % 100 ≠ 0 ∨ y % 400 = 0)

def daysInMonth (y : Int) (m : Nat) : Nat :=
  if m = 2 then (if isLeapYear y then 29 else 28)
  else if m = 4 ∨ m = 6 ∨ m = 9 ∨ m = 11 then 30
  else 31

def daysBeforeMonth (y : Int) (m : Nat) : Nat :=
  ((List.range' 1 (m - 1)).map (daysInMonth y)).sum

/-- Python `date.toordinal`: ordinal 1 is 0001-01-01. -/
def PyDate.toordinal (d : PyDate) : Int :=
  365 * (d.year - 1) + (d.year - 1).ediv 4 - (d.year - 1).ediv 100 + (d.year - 1).ediv 400
    + daysBeforeMonth d.year d.month + d.day

/-- Python `date.fromordinal`: inverse of `toordinal` (standard
`civil_from_days` computation, shifted to Python's epoch). -/
def PyDate.fromordinal (o : Int) : PyDate :=
  let z := o + 305
  let era := z.ediv 146097
  let doe := z - era * 146097
  let yoe := (doe - doe.ediv 1460 + doe.ediv 36524 - doe.ediv 146096).ediv 365
  let y := yoe + era * 400
  let doy := doe - (365 * yoe + yoe.ediv 4 - yoe.ediv 100)
  let mp := (5 * doy + 2).ediv 153
  let d := doy - (153 * mp + 2).ediv 5 + 1
  let m := if mp < 10 then mp + 3 else mp - 9
  { year := if m ≤ 2 then y + 1 else y, month := m.toNat, day := d.toNat }

/-- `_EXCEL_BASE = date(1899, 12, 30)` (validators.py line 32). -/
def EXCEL_BASE : PyDate := ⟨1899, 12, 30⟩

inductive PyExc
  | typeError
deriving DecidableEq, Repr

/-- Python `date.__add__` accepts only a `timedelta`; adding two `date`
objects raises `TypeError`. -/
def pyDateAddDate (_a _b : PyDate) : Except PyExc PyDate := .error .typeError

/-- `convert_excel_date` (validators.py lines 524-552). The source computes
`_EXCEL_BASE + date.fromordinal(int(excel_date))`, i.e. it adds two `date`
objects (`pyDateAddDate`); the resulting `TypeError` is swallowed by the
function's `except Exception` clause, which returns `None`. -/
def convert_excel_date (x : ℚ) : Option PyDate :=
  if ¬ (1 ≤ x ∧ x ≤ 50000) then none
  else
    match pyDateAddDate EXCEL_BASE (PyDate.fromordinal ⌊x⌋) with
    | .error _ => none
    | .ok result =>
      if 1900 ≤ result.year ∧ result.year ≤ 2100 then some result else none

/-- What `convert_excel_date`'s docstring and `parse_date`'s docstring
(validators.py lines 475-476: `>>> parse_date(45000)` giving
`datetime.date(2023, 3, 15)`) say the Excel-serial conversion does: advance
`_EXCEL_BASE` by the serial number of days, then apply the same range
checks. -/
def convert_excel_date_intended (x : ℚ) : Option PyDate :=
  if ¬ (1 ≤ x ∧ x ≤ 50000) then none
  else
    let result := PyDate.fromordinal (EXCEL_BASE.toordinal + ⌊x⌋)
    if 1900 ≤ result.year ∧ result.year ≤ 2100 then some result else none

/-- The numeric branch of `parse_date` (validators.py lines 478-491):
falsy input (`0`) gives `None`, other numbers go to `convert_excel_date`. -/
def parse_date_num (x : ℚ) : Option PyDate :=
  if x = 0 then none else convert_excel_date x

/-! ### `parse_date` on strings: the `_DATE_FORMATS` table -/

inductive YearKind
  | y4
  | y2
deriving DecidableEq, Repr

/-- One `strptime` date pattern: separator, component order, year width. -/
structure Fmt where
  sep : Char
  yearFirst : Bool
  yk : YearKind
deriving DecidableEq, Repr

/-- `_DATE_FORMATS` (validators.py lines 20-29), in source order. -/
def DATE_FORMATS : List Fmt :=
  [⟨'/', false, .y4⟩, ⟨'/', false, .y2⟩, ⟨'-', false, .y4⟩, ⟨'-', false, .y2⟩,
   ⟨'/', true, .y4⟩, ⟨'-', true, .y4⟩, ⟨'.', false, .y4⟩, ⟨'.', false, .y2⟩]

/-- `strptime`'s `%y`: 00-68 maps into the 2000s, 69-99 into the 1900s. -/
def expandY2 (n : Nat) : Int := if n ≤ 68 then 2000 + (n : Int) else 1900 + (n : Int)

/-- `datetime(...)` construction: validates the month and the day-in-month. -/
def mkValidDate (y : Int) (m d : Nat) : Option PyDate :=
  if 1 ≤ y ∧ 1 ≤ m ∧ m ≤ 12 ∧ 1 ≤ d ∧ d ≤ daysInMonth y m then some ⟨y, m, d⟩ else none

/-- Width accepted for the year group: `%Y` up to four digits, `%y` two. -/
def yearLenOK (yk : YearKind) (n : Nat) : Bool :=
  match yk with
  | .y4 => n ≤ 4
  | .y2 => n = 2

/-- `datetime.strptime(s, fmt).date()` for the patterns of `DATE_FORMATS`:
three digit groups joined by the separator, `%d`/`%m` of one or two digits,
`%Y` of up to four digits, `%y` of exactly two, then date validation.
Failure (`ValueError`) is `none`. -/
def strptimeDate (f : Fmt) (s : String) : Option PyDate :=
  match List.splitOn f.sep s.toList with
  | [a, b, c] =>
    if (a ≠ [] ∧ a.all Char.isDigit) ∧ (b ≠ [] ∧ b.all Char.isDigit) ∧
        (c ≠ [] ∧ c.all Char.isDigit) then
      let ys := if f.yearFirst then a else c
      let ds := if f.yearFirst then c else a
      let ms := b
      if ms.length ≤ 2 ∧ ds.length ≤ 2 ∧ yearLenOK f.yk ys.length then
        let y : Int :=
          match f.yk with
          | .y4 => (natOfDigits ys : Int)
          | .y2 => expandY2 (natOfDigits ys)
        mkValidDate y (natOfDigits ms) (natOfDigits ds)
      else none
    else none
  | _ => none

/-- Drop the first occurrence of a character (`str.replace(c, '', 1)`). -/
def removeFirst (c : Char) : List Char → List Char
  | [] => []
  | x :: r => if x = c then r else x :: removeFirst c r

/-- The string branch of `parse_date` (validators.py lines 494-519): try the
eight `_DATE_FORMATS` in order; on failure fall back to pandas
`pd.to_datetime(value_str, dayfirst=True, errors='coerce')` — third-party
code, abstracted as the parameter `pdParse` — and finally, for digit-like
strings, to the Excel-serial path (which, per `convert_excel_date`, always
yields `None`). -/
def parse_date_str (pdParse : String → Option PyDate) (s : String) : Option PyDate :=
  if s = "" then none
  else
    let vs := pyStrip s
    match DATE_FORMATS.findSome? (fun f => strptimeDate f vs) with
    | some d => some d
    | none =>
      match pdParse vs with
      | some d => some d
      | none =>
        let probe := removeFirst ',' (removeFirst '.' vs.toList)
        if probe ≠ [] ∧ probe.all Char.isDigit then
          match pyFloat? (replaceAll ',' [] ['.'] vs.toList) with
          | some q => convert_excel_date q
          | none => none
        else none

/-! ## Data model (models.py) -/

/-- `ColaboradorInterno` (models.py 183-391), the fields the claims touch.
`deleted_at`/`deleted_by` are merged into `deleted_reason`'s presence. -/
structure Colaborador where
  cid : Nat
  nome : String
  cpf : String
  email : Option String
  telefone : Option String
  data_admissao : Option Nat
  data_nascimento : Option Nat
  is_deleted : Bool
  deleted_reason : Option String
deriving DecidableEq, Repr

/-- `NumeroCadastro` (models.py 394-524). Dates are abstract day numbers. -/
structure NCRow where
  rid : Nat
  nc : String
  cod_empresa : String
  data_inicio : Nat
  data_fim : Option Nat
  ativo : Bool
  motivo_mudanca : Option String
  colaborador_id : Nat
deriving DecidableEq, Repr

/-- `HistoricoCI` (models.py 955-1028), reduced to the identifying fields. -/
structure Historico where
  colaborador_id : Nat
  tipo_evento : String
  nc : Option String
deriving DecidableEq, Repr

/-- `ImportacaoLog` (models.py 1031-1107), the fields `importar_ativos`
fills. -/
structure ImportLog where
  tipo_importacao : String
  status : String
  linhas_processadas : Nat
  linhas_sucesso : Nat
  linhas_erro : Nat
  detalhes : Option String
deriving DecidableEq, Repr

/-- The persistent store: one list per table plus fresh-id counters. -/
structure DB where
  colaboradores : List Colaborador
  ncs : List NCRow
  historico : List Historico
  logs : List ImportLog
  nextRid : Nat
  nextCid : Nat
deriving DecidableEq, Repr

/-- Key of `UniqueConstraint('nc', 'ativo', 'colaborador_id')`
(models.py line 416). -/
def NCRow.ucKey (r : NCRow) : String × Bool × Nat := (r.nc, r.ativo, r.colaborador_id)

/-- The `numeros_cadastro` unique constraint holds of a table state. -/
def ucOK (rows : List NCRow) : Prop := (rows.map NCRow.ucKey).Nodup

instance : DecidablePred ucOK := fun _ => inferInstanceAs (Decidable (List.Nodup _))

/-- The pairwise form of Invariant A: two rows may not both be active for
one employee. -/
def rinv (a b : NCRow) : Prop :=
  a.ativo = true → b.ativo = true → a.colaborador_id ≠ b.colaborador_id

instance : DecidableRel rinv := fun a b => by unfold rinv; infer_instance

/-- Invariant A: no two distinct rows are both active for one employee. -/
def invA (rows : List NCRow) : Prop := rows.Pairwise rinv

instance : DecidablePred invA := fun rows => by unfold invA; infer_instance

/-- Primary-key well-formedness of the registration table: row ids are
unique and below the fresh-id counter. -/
def wfRids (db : DB) : Prop :=
  (db.ncs.map NCRow.rid).Nodup ∧ ∀ r ∈ db.ncs, r.rid < db.nextRid

/-- `NumeroCadastro.desativar` (models.py 443-451). -/
def NCRow.desativar (today : Nat) (r : NCRow) (dataFim : Option Nat)
    (motivo : Option String) : NCRow :=
  { r with ativo := false, data_fim := some (dataFim.getD today),
           motivo_mudanca := motivo.orElse (fun _ => r.motivo_mudanca) }

/-- `NumeroCadastro.reativar` (models.py 453-462). -/
def NCRow.reativar (today : Nat) (r : NCRow) (dataInicio : Option Nat)
    (motivo : Option String) : NCRow :=
  { r with ativo := true, data_inicio := dataInicio.getD today, data_fim := none,
           motivo_mudanca := motivo.orElse (fun _ => r.motivo_mudanca) }

/-! ## CIService (services/ci_service.py) -/

inductive CIErr
  | ciNaoEncontrado (id : Nat)
  | colaboradorExcluido (id : Nat)
  | ncEmUso (nc : String)
  | validacao (msg : String)
deriving DecidableEq, Repr

instance {ε α : Type} [DecidableEq ε] [DecidableEq α] : DecidableEq (Except ε α) := fun x y =>
  match x, y with
  | .ok a, .ok b => if h : a = b then isTrue (by rw [h]) else isFalse (by simp [h])
  | .error a, .error b => if h : a = b then isTrue (by rw [h]) else isFalse (by simp [h])
  | .ok _, .error _ => isFalse (by simp)
  | .error _, .ok _ => isFalse (by simp)

/-- `ColaboradorInterno.query.get(ci_id)` as used by `obter_por_id`. -/
def obter_por_id (db : DB) (ciId : Nat) : Option Colaborador :=
  db.colaboradores.find? (fun c => c.cid == ciId)

/-- `.order_by(data_inicio.desc()).first()`: the earliest-listed row of
maximal `data_inicio` (list order stands in for the database's tie order). -/
def maxByDataInicio : List NCRow → Option NCRow
  | [] => none
  | r :: rest =>
    match maxByDataInicio rest with
    | none => some r
    | some m => if m.data_inicio > r.data_inicio then some m else some r

/-- `CIService.nc_em_uso` (ci_service.py 526-553). `excluirCiId` follows
Python truthiness: the `colaborador_id !=` filter applies only for a
non-`None`, non-zero id. -/
def nc_em_uso (db : DB) (nc : String) (excluirCiId : Option Nat) : Bool :=
  match clean_nc nc with
  | none => false
  | some ncLimpo =>
    db.ncs.any (fun r =>
      r.nc == ncLimpo && r.ativo &&
        (match excluirCiId with
         | some i => decide (i = 0) || decide (r.colaborador_id ≠ i)
         | none => true))

/-- The deactivation sweep of `adicionar_nc` (ci_service.py 600-611):
deactivate the employee's active registrations other than the requested
code. -/
def adicionar_deactivate (today ciId : Nat) (ncLimpo : String) (rows : List NCRow) :
    List NCRow :=
  rows.map (fun r =>
    if r.colaborador_id = ciId ∧ r.ativo = true ∧ r.nc ≠ ncLimpo then
      r.desativar today (some today) (some ("MUDANÇA PARA NC " ++ ncLimpo))
    else r)

/-- Reactivate-or-insert step of `adicionar_nc` (ci_service.py 613-642),
followed by the commit whose unique-constraint violation becomes a
`ValidacaoError` with rollback. -/
def adicionar_core (today : Nat) (db : DB) (ciId : Nat) (ncLimpo empresaLimpa : String)
    (motivo : Option String) : Except CIErr NCRow × DB :=
  let ncs1 := adicionar_deactivate today ciId ncLimpo db.ncs
  match maxByDataInicio (ncs1.filter (fun r =>
      decide (r.colaborador_id = ciId ∧ r.nc = ncLimpo ∧ r.ativo = false))) with
  | some ex =>
    let reativado :=
      { ex.reativar today (some today) (some (motivo.getD "REATIVAÇÃO")) with
        cod_empresa := empresaLimpa }
    let ncs2 := ncs1.map (fun r => if r.rid = ex.rid then reativado else r)
    if ucOK ncs2 then (.ok reativado, { db with ncs := ncs2 })
    else (.error (.validacao "Erro ao adicionar NC"), db)
  | none =>
    let novo : NCRow :=
      ⟨db.nextRid, ncLimpo, empresaLimpa, today, none, true,
       some (motivo.getD "NOVO NC"), ciId⟩
    let ncs2 := ncs1 ++ [novo]
    if ucOK ncs2 then
      (.ok novo, { db with ncs := ncs2, nextRid := db.nextRid + 1 })
    else (.error (.validacao "Erro ao adicionar NC"), db)

/-- `CIService.adicionar_nc` (ci_service.py 555-648). The pair carries the
raised-or-returned value together with the post-call store; the store is the
input one whenever an exception propagates (the checks precede every
mutation, and the `except` clause rolls back). -/
def adicionar_nc (cfg : List String) (today : Nat) (db : DB) (ciId : Nat)
    (nc empresa : String) (motivo : Option String) : Except CIErr NCRow × DB :=
  match obter_por_id db ciId with
  | none => (.error (.ciNaoEncontrado ciId), db)
  | some ci =>
    if ci.is_deleted then (.error (.colaboradorExcluido ciId), db)
    else
      match clean_nc nc, clean_empresa cfg empresa with
      | none, _ => (.error (.validacao "NC inválido"), db)
      | some _, none => (.error (.validacao "Empresa inválida"), db)
      | some ncLimpo, some empresaLimpa =>
        if nc_em_uso db ncLimpo (some ciId) then (.error (.ncEmUso ncLimpo), db)
        else adicionar_core today db ciId ncLimpo empresaLimpa motivo

/-- `ColaboradorInterno.nc_ativo` (models.py 254-257): first active
registration under the relationship's `data_inicio.desc()` order. -/
def nc_ativo (db : DB) (ciId : Nat) : Option NCRow :=
  maxByDataInicio (db.ncs.filter (fun r => decide (r.colaborador_id = ciId ∧ r.ativo)))

/-- `ColaboradorInterno.excluir_soft` (models.py 317-326): set the
soft-delete tag and deactivate every active registration. -/
def excluir_soft (today : Nat) (db : DB) (ciId : Nat) (motivo : Option String) : DB :=
  { db with
    colaboradores := db.colaboradores.map (fun c =>
      if c.cid = ciId then
        { c with is_deleted := true,
                 deleted_reason := some (motivo.getD "Exclusão manual") }
      else c),
    ncs := db.ncs.map (fun r =>
      if r.colaborador_id = ciId ∧ r.ativo then
        r.desativar today (some today) (some "EXCLUSÃO DO CI")
      else r) }

/-- The conflict probe `ColaboradorInterno.restaurar` actually executes
(models.py line 346). The source calls the *instance* method
`CIService.nc_em_uso` on the class, so the arguments shift by one: `self`
receives the string `ultimo_nc.nc`, the `nc` parameter receives the integer
`self.id`, and `excluir_ci_id` stays `None`. The executed check is therefore
`nc_em_uso(nc=self.id, excluir_ci_id=None)`: "is the decimal string of this
employee's id an active code for anyone?" (`clean_nc(0)` is `None` because
`0` is falsy, hence the guard). -/
def restaurar_probe (db : DB) (ciId : Nat) : Bool :=
  if ciId = 0 then false else nc_em_uso db (toString ciId) none

/-- `ColaboradorInterno.restaurar` (models.py 328-351): clear the
soft-delete fields; reactivate the most recent registration (direct field
assignment: `ativo`, `data_fim`, `motivo_mudanca` only) when it is inactive
and `restaurar_probe` comes back clear; return `True` whenever the employee
was deleted. -/
def restaurar_model (db : DB) (ciId : Nat) : Bool × DB :=
  match obter_por_id db ciId with
  | none => (false, db)
  | some ci =>
    if ¬ ci.is_deleted then (false, db)
    else
      let db1 := { db with colaboradores := db.colaboradores.map (fun c =>
        if c.cid = ciId then { c with is_deleted := false, deleted_reason := none } else c) }
      match maxByDataInicio (db.ncs.filter (fun r => decide (r.colaborador_id = ciId))) with
      | none => (true, db1)
      | some ultimo =>
        if ultimo.ativo then (true, db1)
        else if restaurar_probe db ciId then (true, db1)
        else
          (true, { db1 with ncs := db1.ncs.map (fun r =>
            if r.rid = ultimo.rid then
              { r with ativo := true, data_fim := none,
                       motivo_mudanca := some "RESTAURAÇÃO" }
            else r) })

/-- `CIService.restaurar_colaborador` (ci_service.py 1038-1094): guard on
existence and deletion state, delegate to the model's `restaurar`, append a
`RESTAURACAO` history entry and commit (unique constraint enforced, with
rollback to the pre-call store on `IntegrityError`). -/
def restaurar_colaborador (db : DB) (ciId : Nat) : Except CIErr Bool × DB :=
  match obter_por_id db ciId with
  | none => (.error (.ciNaoEncontrado ciId), db)
  | some ci =>
    if ¬ ci.is_deleted then (.ok false, db)
    else
      let r := restaurar_model db ciId
      if r.1 then
        let db2 := { r.2 with historico := r.2.historico ++
          [⟨ciId, "RESTAURACAO", (nc_ativo r.2 ciId).map (·.nc)⟩] }
        if ucOK db2.ncs then (.ok true, db2)
        else (.error (.validacao "Erro ao restaurar colaborador"), db)
      else (.ok false, r.2)

/-! ## Import engine (utils/import_functions.py) -/

/-- `_clean_cpf` (import_functions.py 27-31): keep digits, left-pad with
zeros to 11; no checksum of any kind. -/
def _clean_cpf (cpf : String) : String :=
  if cpf = "" then ""
  else
    let digits := pyDigits cpf
    String.mk (List.replicate (11 - digits.length) '0' ++ digits)

/-- `_clean_nc` (import_functions.py 34-39): keep digits, then
`lstrip('0') or '0'`. -/
def _clean_nc (nc : String) : String :=
  if nc = "" then ""
  else
    let stripped := lstripZeros (pyDigits nc)
    if stripped = [] then "0" else String.mk stripped

/-- `_parse_date` (import_functions.py 15-24): reject empty and
`00/00/0000`, then try `%d/%m/%Y`, `%Y-%m-%d`, `%d-%m-%Y` in order;
successful dates are stored as their ordinal. -/
def _parse_date (s : String) : Option Nat :=
  if s = "" ∨ s = "00/00/0000" then none
  else
    (([⟨'/', false, .y4⟩, ⟨'-', true, .y4⟩, ⟨'-', false, .y4⟩] : List Fmt).findSome?
        (fun f => strptimeDate f (pyStrip s))).map (fun d => d.toordinal.toNat)

/-- One data row of an "ativos" CSV after the header/column mapping of
`importar_ativos` (lines 85-105) has been applied: each field holds the raw
cell text `get_val` returns for the corresponding logical column (the
fields feeding only `dados_adicionais` are omitted). -/
structure CsvRow where
  cpf : String
  nome : String
  matricula : String
  data_admissao : String
  data_nascimento : String
  email : String
  telefone : String
  cod_empresa : String
deriving DecidableEq, Repr

/-- The `resultado` dictionary of `importar_ativos` (lines 59-66; the
`detalhes` list is omitted). -/
structure ResultadoAtivos where
  sucesso : Bool
  total : Nat
  importados : Nat
  atualizados : Nat
  erros : List String
deriving DecidableEq, Repr

/-- One iteration of the deactivate-or-delete loop of `importar_ativos`
(import_functions.py 206-219): *delete* the processed active row when an
inactive row with the same code already exists for the employee (line 216,
`db.session.delete(nc_ativo)`), else deactivate it. -/
def importar_sweep_step (today cid : Nat) (acc : List NCRow) (a : NCRow) : List NCRow :=
  if acc.any (fun r => decide (r.nc = a.nc ∧ r.colaborador_id = cid ∧ ¬ r.ativo)) then
    acc.filter (fun r => decide (r.rid ≠ a.rid))
  else
    acc.map (fun r =>
      if r.rid = a.rid then { r with ativo := false, data_fim := some today } else r)

/-- Lines 192-243 of `importar_ativos`: ensure the row's NC is the
employee's single active registration. Old active rows are swept via
`importar_sweep_step`. A `ValueError` raised by `NumeroCadastro`'s
`cod_empresa` validator (models.py 431-440, checked against
`VALID_COMPANY_CODES`) is caught by the per-row `except`, recording a row
error while keeping every mutation already made (in the reactivation branch
the `ativo`/`data_fim`/`data_inicio` assignments precede the raising
`cod_empresa` assignment). -/
def importar_ativos_nc (cfg : List String) (today : Nat) (rowNum : Nat) (cid : Nat)
    (nc codEmpresa : String) (dataAdmissao : Option Nat)
    (db : DB) (res : ResultadoAtivos) : DB × ResultadoAtivos :=
  if db.ncs.any (fun r => decide (r.nc = nc ∧ r.colaborador_id = cid ∧ r.ativo)) then
    (db, res)
  else
    let atSnapshot := db.ncs.filter (fun r => decide (r.colaborador_id = cid ∧ r.ativo))
    let ncs1 := atSnapshot.foldl (importar_sweep_step today cid) db.ncs
    let erroEmpresa :=
      "Linha " ++ toString rowNum ++ ": Empresa " ++ codEmpresa ++ " não é válida"
    match ncs1.find? (fun r => decide (r.nc = nc ∧ r.colaborador_id = cid ∧ ¬ r.ativo)) with
    | some ex =>
      let parcial : NCRow → NCRow := fun r =>
        { r with ativo := true, data_fim := none,
                 data_inicio := dataAdmissao.getD r.data_inicio }
      if cfg.contains codEmpresa then
        ({ db with ncs := ncs1.map (fun r =>
            if r.rid = ex.rid then { parcial r with cod_empresa := codEmpresa } else r) },
         res)
      else
        ({ db with ncs := ncs1.map (fun r => if r.rid = ex.rid then parcial r else r) },
         { res with erros := res.erros ++ [erroEmpresa] })
    | none =>
      if cfg.contains codEmpresa then
        ({ db with
            ncs := ncs1 ++
              [⟨db.nextRid, nc, codEmpresa, dataAdmissao.getD today, none, true, none, cid⟩],
            nextRid := db.nextRid + 1 },
         res)
      else
        ({ db with ncs := ncs1 }, { res with erros := res.erros ++ [erroEmpresa] })

/-- One iteration of the `for row_num, row_data in enumerate(reader, start=2)`
loop of `importar_ativos` (lines 107-248): validate CPF, name and NC
(recording a row error and continuing on failure), then create or update the
employee and delegate to `importar_ativos_nc`. -/
def importar_ativos_row (cfg : List String) (today : Nat) (rowNum : Nat)
    (st : DB × ResultadoAtivos) (row : CsvRow) : DB × ResultadoAtivos :=
  let db := st.1
  let res := { st.2 with total := st.2.total + 1 }
  let cpf := _clean_cpf row.cpf
  if cpf = "" ∨ cpf.length ≠ 11 then
    (db, { res with erros := res.erros ++
      ["Linha " ++ toString rowNum ++ ": CPF invalido '" ++ row.cpf ++ "'"] })
  else
    let nome := pyStrip row.nome
    if nome = "" then
      (db, { res with erros := res.erros ++ ["Linha " ++ toString rowNum ++ ": Nome vazio"] })
    else
      let nc := _clean_nc row.matricula
      if nc = "" then
        (db, { res with erros := res.erros ++
          ["Linha " ++ toString rowNum ++ ": Matricula/NC invalido"] })
      else
        let dataAdmissao := _parse_date row.data_admissao
        let dataNascimento := _parse_date row.data_nascimento
        let email := if pyStrip row.email = "" then none else some (pyStrip row.email)
        let telefone := if pyStrip row.telefone = "" then none else some (pyStrip row.telefone)
        let codEmpresa := String.mk ((stripChars row.cod_empresa.toList).take 10)
        match db.colaboradores.find? (fun c => c.cpf == cpf) with
        | some c =>
          let c' := { c with
            nome := nome,
            email := email.orElse (fun _ => c.email),
            telefone := telefone.orElse (fun _ => c.telefone),
            data_admissao := dataAdmissao.orElse (fun _ => c.data_admissao),
            data_nascimento := dataNascimento.orElse (fun _ => c.data_nascimento),
            is_deleted := false }
          let db1 := { db with colaboradores :=
            db.colaboradores.map (fun x => if x.cid = c.cid then c' else x) }
          importar_ativos_nc cfg today rowNum c.cid nc codEmpresa dataAdmissao db1
            { res with atualizados := res.atualizados + 1 }
        | none =>
          let c' : Colaborador :=
            ⟨db.nextCid, nome, cpf, email, telefone, dataAdmissao, dataNascimento, false, none⟩
          let db1 := { db with colaboradores := db.colaboradores ++ [c'],
                               nextCid := db.nextCid + 1 }
          importar_ativos_nc cfg today rowNum db.nextCid nc codEmpresa dataAdmissao db1
            { res with importados := res.importados + 1 }

/-- The row loop of `importar_ativos`, numbering rows from 2 (the CSV header
is file line 1). -/
def importar_ativos_rows (cfg : List String) (today : Nat) :
    Nat → DB × ResultadoAtivos → List CsvRow → DB × ResultadoAtivos
  | _, st, [] => st
  | rowNum, st, row :: rest =>
    importar_ativos_rows cfg today (rowNum + 1) (importar_ativos_row cfg today rowNum st row) rest

/-- `importar_ativos` (import_functions.py 42-283), from the point where the
CSV is decoded into per-row field values. The single end-of-batch
`db.session.commit()` (line 251) enforces the unique constraint — on
`IntegrityError` the `except` branch (260-264) rolls everything back and
flags failure — and the `ImportacaoLog` of lines 267-279 is appended with
`linhas_sucesso = importados + atualizados` and `linhas_erro = len(erros)`,
regardless of the batch outcome. -/
def importar_ativos (cfg : List String) (today : Nat) (db : DB) (rows : List CsvRow) :
    ResultadoAtivos × DB :=
  let st := importar_ativos_rows cfg today 2 (db, ⟨true, 0, 0, 0, []⟩) rows
  let ok := ucOK st.1.ncs
  let res1 := if ok then st.2
    else { st.2 with sucesso := false,
                     erros := st.2.erros ++ ["Erro ao processar arquivo"] }
  let db2 := if ok then st.1 else db
  let status :=
    if res1.sucesso ∧ res1.erros = [] then "SUCESSO"
    else if res1.sucesso then "PARCIAL" else "ERRO"
  let log : ImportLog :=
    ⟨"ATIVOS", status, res1.total, res1.importados + res1.atualizados, res1.erros.length,
     if res1.erros = [] then none else some (String.intercalate "; " (res1.erros.take 10))⟩
  (res1, { db2 with logs := db2.logs ++ [log] })

/-- The `resultado` dictionary of `importar_desligados` (lines 291-296). -/
structure ResultadoDesligados where
  sucesso : Bool
  total : Nat
  processados : Nat
  erros : List String
deriving DecidableEq, Repr

/-- A data row of a "desligados" CSV (`DictReader`): only the `CPF` column
is consulted. -/
structure DesligadosRow where
  cpf : String
deriving DecidableEq, Repr

/-- One iteration of the row loop of `importar_desligados` (lines 312-335):
a CPF that does not clean to 11 digits is skipped by a bare `continue`
(lines 317-318) — no row error is recorded; a found employee is soft-deleted
and its active registrations bulk-deactivated. -/
def importar_desligados_row (today : Nat) (st : DB × ResultadoDesligados)
    (row : DesligadosRow) : DB × ResultadoDesligados :=
  let db := st.1
  let res := { st.2 with total := st.2.total + 1 }
  let cpf := _clean_cpf row.cpf
  if cpf = "" ∨ cpf.length ≠ 11 then (db, res)
  else
    match db.colaboradores.find? (fun c => c.cpf == cpf) with
    | none => (db, res)
    | some c =>
      ({ db with
          colaboradores := db.colaboradores.map (fun x =>
            if x.cid = c.cid then
              { x with is_deleted := true, deleted_reason := some "Importacao de desligados" }
            else x),
          ncs := db.ncs.map (fun r =>
            if r.colaborador_id = c.cid ∧ r.ativo then
              { r with ativo := false, data_fim := some today }
            else r) },
       { res with processados := res.processados + 1 })

/-- `importar_desligados` (import_functions.py 286-344). Unlike
`importar_ativos`, no `ImportacaoLog` row is ever written. -/
def importar_desligados (today : Nat) (db : DB) (rows : List DesligadosRow) :
    ResultadoDesligados × DB :=
  let st := rows.foldl (importar_desligados_row today) (db, ⟨true, 0, 0, []⟩)
  if ucOK st.1.ncs then (st.2, st.1)
  else ({ st.2 with sucesso := false, erros := st.2.erros ++ ["IntegrityError"] }, db)

/-! ## Alert service (services/alert_service.py) -/

/-- `Alerta` (models.py 1110-1202), the fields the claims touch. -/
structure Alerta where
  aid : Nat
  tipo : String
  descricao : String
  gravidade : String
  resolvido : Bool
  data_alerta : Nat
deriving DecidableEq, Repr

structure AlertDB where
  alertas : List Alerta
  nextAid : Nat
deriving DecidableEq, Repr

/-- Default severities of `AlertService.alert_types` (alert_service.py
27-67). -/
def alert_types : List (String × String) :=
  [("CI_SEM_NC", "MEDIA"), ("NC_DUPLICADO", "ALTA"), ("CPF_DUPLICADO", "ALTA"),
   ("PLANO_VENCIDO", "MEDIA"), ("ATENDIMENTO_SEM_PLANO", "BAIXA"),
   ("DEPENDENTE_SEM_CPF", "BAIXA"), ("IMPORTACAO_ERRO", "ALTA"), ("SISTEMA", "CRITICA")]

/-- `datetime(hoje.year, hoje.month, hoje.day)` as seconds: the start of the
calendar day containing timestamp `t`. -/
def inicioDia (t : Nat) : Nat := (t / 86400) * 86400

/-- `AlertService.criar_alerta` (alert_service.py 185-258). Timestamps are
seconds of a single clock (the service queries `datetime.now()` for the
dedup window and stamps with `datetime.utcnow()`; both are modelled as
`now`). With `evitarDuplicados`, an unresolved alert of identical type and
description whose `data_alerta` lies in today's `[inicio_dia, fim_dia)`
window is returned as-is; otherwise a fresh row is inserted. -/
def criar_alerta (now : Nat) (db : AlertDB) (tipo descricao : String)
    (gravidade : Option String) (evitarDuplicados : Bool) : Alerta × AlertDB :=
  let grav := gravidade.getD
    (((alert_types.find? (fun p => p.1 == tipo)).map Prod.snd).getD "MEDIA")
  let dup :=
    if evitarDuplicados then
      db.alertas.find? (fun a => decide (a.tipo = tipo ∧ a.descricao = descricao ∧
        inicioDia now ≤ a.data_alerta ∧ a.data_alerta < inicioDia now + 86400 ∧
        a.resolvido = false))
    else none
  match dup with
  | some a => (a, db)
  | none =>
    let a : Alerta := ⟨db.nextAid, tipo, descricao, grav, false, now⟩
    (a, { db with alertas := db.alertas ++ [a], nextAid := db.nextAid + 1 })

/-- `Alerta.resolver` (models.py 1146-1150) applied to the alert `aid`. -/
def resolver_alerta (db : AlertDB) (aid : Nat) : AlertDB :=
  { db with alertas := db.alertas.map (fun a =>
      if a.aid = aid then { a with resolvido := true } else a) }

/-- The alert `criar_alerta` inserts when no duplicate is found. -/
def freshAlerta (now : Nat) (db : AlertDB) (tipo descricao : String)
    (gravidade : Option String) : Alerta :=
  ⟨db.nextAid, tipo, descricao,
   gravidade.getD (((alert_types.find? (fun p => p.1 == tipo)).map Prod.snd).getD "MEDIA"),
   false, now⟩

/-! ## Helper lemmas -/

lemma ws_not_digit {c : Char} (h : c.isWhitespace = true) : c.isDigit = false := by
  simp only [Char.isWhitespace, decide_eq_true_eq, Bool.or_eq_true] at h
  rcases h with ((h | h) | h) | h <;> subst h <;> decide

lemma digit_not_ws {c : Char} (h : c.isDigit = true) : c.isWhitespace = false := by
  cases hw : c.isWhitespace
  · rfl
  · rw [ws_not_digit hw] at h; exact Bool.noConfusion h

lemma filter_dropWhile_ws (p : Char → Bool) (hp : ∀ c, c.isWhitespace = true → p c = false)
    (l : List Char) : (l.dropWhile Char.isWhitespace).filter p = l.filter p := by
  induction l with
  | nil => rfl
  | cons c rest ih =>
    by_cases hc : c.isWhitespace
    · simp [List.dropWhile_cons, hc, List.filter_cons, hp c hc, ih]
    · simp [List.dropWhile_cons, hc]

lemma filter_stripChars (p : Char → Bool) (hp : ∀ c, c.isWhitespace = true → p c = false)
    (l : List Char) : (stripChars l).filter p = l.filter p := by
  unfold stripChars
  rw [List.filter_reverse, filter_dropWhile_ws p hp, List.filter_reverse,
    List.reverse_reverse, filter_dropWhile_ws p hp]

lemma pyDigits_pyStrip (s : String) : pyDigits (pyStrip s) = pyDigits s :=
  filter_stripChars _ (fun _ hc => ws_not_digit hc) _

lemma dropWhile_eq_self_of_not (p : Char → Bool) (l : List Char)
    (h : ∀ c ∈ l, p c = false) : l.dropWhile p = l := by
  cases l with
  | nil => rfl
  | cons c rest => simp [List.dropWhile_cons, h c (by simp)]

lemma stripChars_eq_self {l : List Char} (h : ∀ c ∈ l, c.isWhitespace = false) :
    stripChars l = l := by
  unfold stripChars
  rw [dropWhile_eq_self_of_not _ _ h,
    dropWhile_eq_self_of_not _ _ (fun c hc => h c (List.mem_reverse.mp hc)),
    List.reverse_reverse]

lemma replaceAllFuel_of_not_mem {p : Char} (ps rep : List Char) (fuel : Nat) {l : List Char}
    (h : p ∉ l) : replaceAllFuel p ps rep fuel l = l := by
  induction fuel generalizing l with
  | zero => rfl
  | succ n ih =>
    rcases l with _ | ⟨c, rest⟩
    · rfl
    · have hpc : (p :: ps).isPrefixOf (c :: rest) = false := by
        cases hb : (p :: ps).isPrefixOf (c :: rest)
        · rfl
        · exfalso
          simp only [List.isPrefixOf, Bool.and_eq_true, beq_iff_eq] at hb
          exact h (by simp [hb.1])
      rw [replaceAllFuel, hpc]
      simp only [Bool.false_eq_true, if_false, List.cons.injEq, true_and]
      exact ih (fun hm => h (List.mem_cons_of_mem _ hm))

lemma replaceAll_of_not_mem {p : Char} (ps rep : List Char) {l : List Char} (h : p ∉ l) :
    replaceAll p ps rep l = l :=
  replaceAllFuel_of_not_mem ps rep l.length h

lemma not_contains_of_all {l : List Char} (h : ∀ c ∈ l, c.isDigit = true) {a : Char}
    (ha : a.isDigit = false) : l.contains a = false := by
  cases hb : l.contains a
  · rfl
  · exfalso
    have : a ∈ l := by simpa using hb
    rw [h a this] at ha
    exact Bool.noConfusion ha

lemma exists11 {α : Type} (l : List α) (h : l.length = 11) :
    ∃ a b c d e f g h' i j k, l = [a, b, c, d, e, f, g, h', i, j, k] := by
  rcases l with _ | ⟨a, l⟩; · simp at h
  rcases l with _ | ⟨b, l⟩; · simp at h
  rcases l with _ | ⟨c, l⟩; · simp at h
  rcases l with _ | ⟨d, l⟩; · simp at h
  rcases l with _ | ⟨e, l⟩; · simp at h
  rcases l with _ | ⟨f, l⟩; · simp at h
  rcases l with _ | ⟨g, l⟩; · simp at h
  rcases l with _ | ⟨h', l⟩; · simp at h
  rcases l with _ | ⟨i, l⟩; · simp at h
  rcases l with _ | ⟨j, l⟩; · simp at h
  rcases l with _ | ⟨k, l⟩; · simp at h
  rcases l with _ | ⟨x, l⟩
  · exact ⟨a, b, c, d, e, f, g, h', i, j, k, rfl⟩
  · simp at h

lemma string_mk_ne_empty {l : List Char} (hne : l ≠ []) : String.mk l ≠ "" := by
  intro e
  exact hne (congrArg String.data e)

lemma pyInt?_digits {l : List Char} (hne : l ≠ []) (hdig : ∀ c ∈ l, c.isDigit = true) :
    pyInt? l = some (natOfDigits l : Int) := by
  have hws : ∀ c ∈ l, c.isWhitespace = false := fun c hc => digit_not_ws (hdig c hc)
  rcases l with _ | ⟨c, rest⟩
  · exact absurd rfl hne
  · have hc := hdig c (by simp)
    have h1 : ¬ c = '+' := fun e => by rw [e] at hc; exact absurd hc (by decide)
    have h2 : ¬ c = '-' := fun e => by rw [e] at hc; exact absurd hc (by decide)
    unfold pyInt?
    rw [stripChars_eq_self hws]
    dsimp only
    rw [if_neg h1, if_neg h2, if_pos]
    exact List.all_eq_true.mpr (fun x hx => hdig x hx)

lemma clean_valor_digits (l : List Char) (hne : l ≠ []) (hdig : ∀ c ∈ l, c.isDigit = true) :
    clean_valor_monetario (String.mk l) =
      if 100 ≤ natOfDigits l then (natOfDigits l : ℚ) / 100 else (natOfDigits l : ℚ) := by
  have hws : ∀ c ∈ l, c.isWhitespace = false := fun c hc => digit_not_ws (hdig c hc)
  unfold clean_valor_monetario
  rw [if_neg (string_mk_ne_empty hne)]
  dsimp only [String.toList]
  rw [stripChars_eq_self hws,
    replaceAll_of_not_mem _ _ (fun hm => absurd (hdig 'R' hm) (by decide)),
    replaceAll_of_not_mem _ _ (fun hm => absurd (hdig '$' hm) (by decide)),
    stripChars_eq_self hws]
  have hpre : (['=', '"'].isPrefixOf l) = false := by
    rcases l with _ | ⟨c, rest⟩
    · exact absurd rfl hne
    · cases hb : ['=', '"'].isPrefixOf (c :: rest)
      · rfl
      · exfalso
        simp only [List.isPrefixOf, Bool.and_eq_true, beq_iff_eq] at hb
        have := hdig c (by simp)
        rw [← hb.1] at this
        exact absurd this (by decide)
  have hv2 : (if (['=', '"'].isPrefixOf l = true ∧ l.getLast? = some '"') then
      (List.drop 2 l).dropLast else l) = l :=
    if_neg (fun hand => by rw [hpre] at hand; exact Bool.noConfusion hand.1)
  rw [hv2]
  have hcomma : l.contains ',' = false := not_contains_of_all hdig (by decide)
  have hdot : l.contains '.' = false := not_contains_of_all hdig (by decide)
  rw [if_pos ⟨fun hx => by rw [hcomma] at hx; exact Bool.noConfusion hx,
        fun hx => by rw [hdot] at hx; exact Bool.noConfusion hx⟩,
    pyInt?_digits hne hdig]
  simp

lemma pyDigits_digits (s : String) : ∀ c ∈ pyDigits s, c.isDigit = true :=
  fun _ hc => (List.mem_filter.mp hc).2

lemma pyDigits_mk_digits {ds : List Char} (hdig : ∀ c ∈ ds, c.isDigit = true) :
    pyDigits (String.mk ds) = ds :=
  List.filter_eq_self.mpr hdig

lemma cpf_soma_eq (dv : List Nat) (h : dv.length = 11) :
    (((List.range 9).map fun i => dv.getD i 0 * (10 - i)).sum
        = (List.zipWith (· * ·) (dv.take 9) [10, 9, 8, 7, 6, 5, 4, 3, 2]).sum) ∧
    (((List.range 10).map fun i => dv.getD i 0 * (11 - i)).sum
        = (List.zipWith (· * ·) (dv.take 10) [11, 10, 9, 8, 7, 6, 5, 4, 3, 2]).sum) := by
  obtain ⟨a, b, c, d, e, f, g, h', i, j, k, rfl⟩ := exists11 dv h
  constructor <;> dsimp [List.range, List.range.loop]

lemma is_valid_cpf_mk {ds : List Char} (h11 : ds.length = 11)
    (hdig : ∀ c ∈ ds, c.isDigit = true) :
    is_valid_cpf (String.mk ds) = true ↔
      (ds ≠ List.replicate 11 (ds.headD '0') ∧
       (ds.map charVal).getD 9 0 =
         specCheckDigit ((ds.map charVal).take 9) [10, 9, 8, 7, 6, 5, 4, 3, 2] ∧
       (ds.map charVal).getD 10 0 =
         specCheckDigit ((ds.map charVal).take 10) [11, 10, 9, 8, 7, 6, 5, 4, 3, 2]) := by
  have hne : String.mk ds ≠ "" :=
    string_mk_ne_empty (by intro e; rw [e] at h11; exact absurd h11 (by decide))
  unfold is_valid_cpf
  rw [if_neg hne, pyDigits_mk_digits hdig, if_neg (fun hx => hx h11)]
  by_cases hrep : ds = List.replicate 11 (ds.headD '0')
  · rw [if_pos hrep]
    constructor
    · intro hx; exact Bool.noConfusion hx
    · rintro ⟨hne', -⟩; exact absurd hrep hne'
  · rw [if_neg hrep]
    obtain ⟨hs1, hs2⟩ := cpf_soma_eq (ds.map charVal) (by rw [List.length_map, h11])
    dsimp only
    simp only [specCheckDigit, ← hs1, ← hs2, Bool.and_eq_true, beq_iff_eq]
    tauto

lemma lstripZeros_head {l : List Char} {c : Char} {rest : List Char}
    (h : lstripZeros l = c :: rest) : c ≠ '0' := by
  induction l with
  | nil => exact absurd h (by simp [lstripZeros])
  | cons a l ih =>
    by_cases ha : a = '0'
    · exact ih (by simpa [lstripZeros, ha] using h)
    · unfold lstripZeros at h
      rw [List.dropWhile_cons, if_neg (by simpa using ha)] at h
      injection h with h1 _
      rw [← h1]; exact ha

lemma lstripZeros_sub {l : List Char} : ∀ c ∈ lstripZeros l, c ∈ l :=
  fun _ hc => List.dropWhile_sublist _ |>.mem hc

lemma lstripZeros_len {l : List Char} : (lstripZeros l).length ≤ l.length :=
  (List.dropWhile_sublist _).length_le

lemma is_valid_nc_mk {ds : List Char} (hne : ds ≠ []) (hdig : ∀ c ∈ ds, c.isDigit = true)
    (hlen : ds.length ≤ 20) : is_valid_nc (String.mk ds) = true := by
  unfold is_valid_nc
  rw [if_neg (string_mk_ne_empty hne)]
  show (if ¬ (stripChars ds ≠ [] ∧ (stripChars ds).all Char.isDigit = true) then false
    else if (stripChars ds).length < 1 ∨ (stripChars ds).length > 20 then false
    else true) = true
  rw [stripChars_eq_self (fun c hc => digit_not_ws (hdig c hc))]
  rw [if_neg (fun hx => hx ⟨hne, List.all_eq_true.mpr hdig⟩),
    if_neg (fun hx => by
      rcases hx with hx | hx
      · exact absurd (List.length_eq_zero.mp (by omega)) hne
      · omega)]

lemma clean_nc_eq (s : String) (hs : s ≠ "") :
    clean_nc s =
      (if String.mk (pyDigits s) = "" ∨ ¬ is_valid_nc (String.mk (pyDigits s)) = true then none
       else if lstripZeros (pyDigits s) = [] then some "0"
       else some (String.mk (lstripZeros (pyDigits s)))) := by
  unfold clean_nc
  rw [if_neg hs, pyDigits_pyStrip]
  rfl

lemma clean_nc_spec {s t : String} (h : clean_nc s = some t) :
    t.data ≠ [] ∧ (∀ c ∈ t.data, c.isDigit = true) ∧ t.data.length ≤ 20 ∧
      (lstripZeros t.data = t.data ∨ t = "0") := by
  by_cases hs : s = ""
  · rw [hs] at h; exact Option.noConfusion h
  rw [clean_nc_eq s hs] at h
  by_cases hbad : String.mk (pyDigits s) = "" ∨ ¬ is_valid_nc (String.mk (pyDigits s)) = true
  · rw [if_pos hbad] at h; exact Option.noConfusion h
  rw [if_neg hbad] at h
  push_neg at hbad
  obtain ⟨hne0, hvalid⟩ := hbad
  have hdig0 := pyDigits_digits s
  have hlen0 : (pyDigits s).length ≤ 20 := by
    unfold is_valid_nc at hvalid
    rw [if_neg hne0] at hvalid
    rw [show stripChars (String.mk (pyDigits s)).toList = stripChars (pyDigits s) from rfl,
      stripChars_eq_self (fun c hc => digit_not_ws (hdig0 c hc))] at hvalid
    by_cases h1 : ¬ ((pyDigits s) ≠ [] ∧ (pyDigits s).all Char.isDigit = true)
    · rw [if_pos h1] at hvalid; exact Bool.noConfusion hvalid
    · rw [if_neg h1] at hvalid
      by_cases h2 : (pyDigits s).length < 1 ∨ (pyDigits s).length > 20
      · rw [if_pos h2] at hvalid; exact Bool.noConfusion hvalid
      · omega
  by_cases hz : lstripZeros (pyDigits s) = []
  · rw [if_pos hz] at h
    have ht : t = "0" := (Option.some_inj.mp h).symm
    subst ht
    exact ⟨by decide, by decide, by decide, Or.inr rfl⟩
  · rw [if_neg hz] at h
    have ht : t = String.mk (lstripZeros (pyDigits s)) := (Option.some_inj.mp h).symm
    subst ht
    refine ⟨hz, fun c hc => hdig0 c (lstripZeros_sub c hc),
      le_trans lstripZeros_len hlen0, Or.inl ?_⟩
    rcases he : lstripZeros (pyDigits s) with _ | ⟨c, rest⟩
    · exact absurd he hz
    · show lstripZeros (c :: rest) = c :: rest
      unfold lstripZeros
      rw [List.dropWhile_cons]
      simp [lstripZeros_head he]

lemma clean_nc_idem {s t : String} (h : clean_nc s = some t) : clean_nc t = some t := by
  obtain ⟨hne, hdig, hlen, hform⟩ := clean_nc_spec h
  have htne : t ≠ "" := fun e => hne (congrArg String.data e)
  rw [clean_nc_eq t htne]
  have hpd : pyDigits t = t.data := List.filter_eq_self.mpr hdig
  rw [hpd]
  rw [if_neg (fun hx => by
    rcases hx with hx | hx
    · exact hne (congrArg String.data hx)
    · exact hx (is_valid_nc_mk hne hdig hlen))]
  rcases hform with hform | hform
  · rw [if_neg (fun hz => hne (by rw [← hform, hz])), hform]
  · subst hform
    rw [if_pos (by decide)]

lemma criar_alerta_none {now : Nat} {db : AlertDB} {tipo descricao : String}
    {grav : Option String}
    (hnone : db.alertas.find? (fun x => decide (x.tipo = tipo ∧ x.descricao = descricao ∧
      inicioDia now ≤ x.data_alerta ∧ x.data_alerta < inicioDia now + 86400 ∧
      x.resolvido = false)) = none) :
    criar_alerta now db tipo descricao grav true =
      (freshAlerta now db tipo descricao grav,
       { alertas := db.alertas ++ [freshAlerta now db tipo descricao grav],
         nextAid := db.nextAid + 1 }) := by
  unfold criar_alerta
  dsimp only
  rw [hnone]
  rfl

lemma map_rid_map {f : NCRow → NCRow} (hf : ∀ r, (f r).rid = r.rid) (l : List NCRow) :
    (l.map f).map NCRow.rid = l.map NCRow.rid := by
  rw [List.map_map]
  exact List.map_congr_left (fun r _ => hf r)

lemma maxByDataInicio_mem {l : List NCRow} {m : NCRow} (h : maxByDataInicio l = some m) :
    m ∈ l := by
  induction l generalizing m with
  | nil => exact Option.noConfusion h
  | cons r rest ih =>
    unfold maxByDataInicio at h
    rcases he : maxByDataInicio rest with _ | m'
    · rw [he] at h
      cases Option.some_inj.mp h
      exact List.mem_cons_self r rest
    · rw [he] at h
      dsimp only at h
      split_ifs at h
      · cases Option.some_inj.mp h
        exact List.mem_cons_of_mem _ (ih he)
      · cases Option.some_inj.mp h
        exact List.mem_cons_self r rest

/-- `maxByDataInicio` only returns `none` on the empty list. -/
lemma maxByDataInicio_eq_none {l : List NCRow} (h : maxByDataInicio l = none) : l = [] := by
  cases l with
  | nil => rfl
  | cons r rest =>
    unfold maxByDataInicio at h
    rcases he : maxByDataInicio rest with _ | m <;> rw [he] at h
    · exact Option.noConfusion h
    · dsimp only at h
      split_ifs at h

/-- The deactivation sweep keeps the row-id column unchanged. -/
lemma adicionar_deactivate_rids (today ciId : Nat) (ncL : String) (rows : List NCRow) :
    (adicionar_deactivate today ciId ncL rows).map NCRow.rid = rows.map NCRow.rid := by
  unfold adicionar_deactivate
  exact map_rid_map (fun r => by
    try dsimp only
    split_ifs <;> rfl) rows

/-- Every outcome of `adicionar_core` keeps every existing row id, adding at
most the fresh id `db.nextRid`. -/
lemma adicionar_core_rids (today : Nat) (db : DB) (ciId : Nat) (ncL empL : String)
    (motivo : Option String) :
    ((adicionar_core today db ciId ncL empL motivo).2.ncs.map NCRow.rid
        = db.ncs.map NCRow.rid) ∨
    ((adicionar_core today db ciId ncL empL motivo).2.ncs.map NCRow.rid
        = db.ncs.map NCRow.rid ++ [db.nextRid]) := by
  unfold adicionar_core
  try dsimp only
  split
  case _ ex heq =>
    try dsimp only
    split_ifs
    · refine Or.inl ?_
      try dsimp only
      rw [map_rid_map (fun r => by
            try dsimp only
            split_ifs with hr
            · exact hr.symm
            · rfl),
          adicionar_deactivate_rids]
    · exact Or.inl rfl
  case _ heq =>
    try dsimp only
    split_ifs
    · refine Or.inr ?_
      try dsimp only
      rw [List.map_append, adicionar_deactivate_rids]
      rfl
    · exact Or.inl rfl

/-- Every outcome of `adicionar_nc` keeps every existing row id, adding at
most the fresh id `db.nextRid`. -/
lemma adicionar_nc_rids (cfg : List String) (today : Nat) (db : DB) (ciId : Nat)
    (nc empresa : String) (motivo : Option String) :
    ((adicionar_nc cfg today db ciId nc empresa motivo).2.ncs.map NCRow.rid
        = db.ncs.map NCRow.rid) ∨
    ((adicionar_nc cfg today db ciId nc empresa motivo).2.ncs.map NCRow.rid
        = db.ncs.map NCRow.rid ++ [db.nextRid]) := by
  unfold adicionar_nc
  repeat' split
  all_goals first
    | exact Or.inl rfl
    | exact adicionar_core_rids today db ciId _ _ motivo

/-- When an inactive row for the (employee, cleaned code) pair already
exists, `adicionar_core` never inserts: the row-id column is unchanged. -/
lemma adicionar_core_reuses (today : Nat) (db : DB) (ciId : Nat)
    (ncL empL : String) (motivo : Option String)
    (hex : ∃ r ∈ db.ncs, r.colaborador_id = ciId ∧ r.nc = ncL ∧ r.ativo = false) :
    (adicionar_core today db ciId ncL empL motivo).2.ncs.map NCRow.rid
      = db.ncs.map NCRow.rid := by
  obtain ⟨r, hr, hcid, hncr, hativo⟩ := hex
  unfold adicionar_core
  try dsimp only
  split
  case _ ex heq =>
    try dsimp only
    split_ifs
    · try dsimp only
      rw [map_rid_map (fun x => by
            try dsimp only
            split_ifs with hx
            · exact hx.symm
            · rfl),
          adicionar_deactivate_rids]
    · rfl
  case _ heq =>
    exfalso
    have hfr : (if r.colaborador_id = ciId ∧ r.ativo = true ∧ ¬ r.nc = ncL then
        r.desativar today (some today) (some ("MUDANÇA PARA NC " ++ ncL))
      else r) = r := by
      rw [if_neg]
      rintro ⟨-, hact, -⟩
      rw [hativo] at hact
      exact Bool.noConfusion hact
    have hmem : r ∈ List.filter (fun x =>
        decide (x.colaborador_id = ciId ∧ x.nc = ncL ∧ x.ativo = false))
        (adicionar_deactivate today ciId ncL db.ncs) := by
      refine List.mem_filter.mpr ⟨?_, by simp [hcid, hncr, hativo]⟩
      unfold adicionar_deactivate
      exact hfr ▸ List.mem_map_of_mem _ hr
    exact List.ne_nil_of_mem hmem (maxByDataInicio_eq_none heq)

/-- When an inactive row for the (employee, cleaned code) pair already
exists, `adicionar_nc` never inserts: the row-id column is unchanged. -/
lemma adicionar_nc_reuses (cfg : List String) (today : Nat) (db : DB) (ciId : Nat)
    (nc empresa : String) (motivo : Option String) (ncL : String)
    (hnc : clean_nc nc = some ncL)
    (hex : ∃ r ∈ db.ncs, r.colaborador_id = ciId ∧ r.nc = ncL ∧ r.ativo = false) :
    (adicionar_nc cfg today db ciId nc empresa motivo).2.ncs.map NCRow.rid
      = db.ncs.map NCRow.rid := by
  unfold adicionar_nc
  rcases obter_por_id db ciId with _ | ci
  · rfl
  dsimp only
  split_ifs
  · rfl
  rw [hnc]
  rcases clean_empresa cfg empresa with _ | empL
  · rfl
  dsimp only
  split_ifs
  · rfl
  · exact adicionar_core_reuses today db ciId ncL empL motivo hex

lemma restaurar_model_rids (db : DB) (ciId : Nat) :
    (restaurar_model db ciId).2.ncs.map NCRow.rid = db.ncs.map NCRow.rid := by
  unfold restaurar_model
  rcases obter_por_id db ciId with _ | ci
  · rfl
  try dsimp only
  split
  · rfl
  split
  · rfl
  case _ ultimo heq =>
    try dsimp only
    split
    · rfl
    split
    · rfl
    exact map_rid_map (fun r => by
      try dsimp only
      split_ifs <;> rfl) _

lemma restaurar_colaborador_rids (db : DB) (ciId : Nat) :
    (restaurar_colaborador db ciId).2.ncs.map NCRow.rid = db.ncs.map NCRow.rid := by
  unfold restaurar_colaborador
  rcases obter_por_id db ciId with _ | ci
  · rfl
  dsimp only
  split_ifs
  · exact restaurar_model_rids db ciId
  · rfl
  · exact restaurar_model_rids db ciId
  · rfl

lemma excluir_soft_rids (today : Nat) (db : DB) (ciId : Nat) (motivo : Option String) :
    (excluir_soft today db ciId motivo).ncs.map NCRow.rid = db.ncs.map NCRow.rid := by
  unfold excluir_soft
  exact map_rid_map (fun r => by
    try dsimp only
    split_ifs <;> rfl) _

lemma importar_desligados_row_rids (today : Nat) (st : DB × ResultadoDesligados)
    (row : DesligadosRow) :
    (importar_desligados_row today st row).1.ncs.map NCRow.rid = st.1.ncs.map NCRow.rid := by
  unfold importar_desligados_row
  dsimp only
  split_ifs
  · rfl
  split
  · rfl
  · exact map_rid_map (fun r => by
      split_ifs <;> rfl) _

lemma importar_desligados_fold_rids (today : Nat) (rows : List DesligadosRow)
    (st : DB × ResultadoDesligados) :
    (rows.foldl (importar_desligados_row today) st).1.ncs.map NCRow.rid
      = st.1.ncs.map NCRow.rid := by
  induction rows generalizing st with
  | nil => rfl
  | cons r rest ih =>
    rw [List.foldl_cons, ih, importar_desligados_row_rids]

lemma importar_desligados_rids (today : Nat) (db : DB) (rows : List DesligadosRow) :
    (importar_desligados today db rows).2.ncs.map NCRow.rid = db.ncs.map NCRow.rid := by
  unfold importar_desligados
  try dsimp only
  split_ifs
  · exact importar_desligados_fold_rids today rows (db, ⟨true, 0, 0, []⟩)
  · rfl

lemma importar_desligados_row_logs (today : Nat) (st : DB × ResultadoDesligados)
    (row : DesligadosRow) :
    (importar_desligados_row today st row).1.logs = st.1.logs := by
  unfold importar_desligados_row
  dsimp only
  split_ifs
  · rfl
  split
  · rfl
  · rfl

lemma importar_desligados_fold_logs (today : Nat) (rows : List DesligadosRow)
    (st : DB × ResultadoDesligados) :
    (rows.foldl (importar_desligados_row today) st).1.logs = st.1.logs := by
  induction rows generalizing st with
  | nil => rfl
  | cons r rest ih =>
    rw [List.foldl_cons, ih, importar_desligados_row_logs]

lemma importar_desligados_logs (today : Nat) (db : DB) (rows : List DesligadosRow) :
    (importar_desligados today db rows).2.logs = db.logs := by
  unfold importar_desligados
  try dsimp only
  split_ifs
  · exact importar_desligados_fold_logs today rows (db, ⟨true, 0, 0, []⟩)
  · rfl

lemma invA_map (f : NCRow → NCRow)
    (hcid : ∀ r, (f r).colaborador_id = r.colaborador_id)
    (hact : ∀ r, (f r).ativo = true → r.ativo = true)
    {l : List NCRow} (h : invA l) : invA (l.map f) := by
  unfold invA at *
  rw [List.pairwise_map]
  refine h.imp ?_
  intro a b hab ha hb
  rw [hcid a, hcid b]
  exact hab (hact a ha) (hact b hb)

lemma adicionar_deactivate_invA (today ciId : Nat) (ncL : String) {rows : List NCRow}
    (h : invA rows) : invA (adicionar_deactivate today ciId ncL rows) := by
  unfold adicionar_deactivate
  refine invA_map _ (fun r => by split_ifs <;> rfl) (fun r => ?_) h
  try dsimp only
  split_ifs with hc
  · intro hactF
    exact Bool.noConfusion hactF
  · exact id

lemma adicionar_deactivate_prop (today ciId : Nat) (ncL : String) (rows : List NCRow) :
    ∀ r ∈ adicionar_deactivate today ciId ncL rows,
      r.ativo = true → r.colaborador_id = ciId → r.nc = ncL := by
  unfold adicionar_deactivate
  intro r hr
  obtain ⟨q, hq, rfl⟩ := List.mem_map.mp hr
  try dsimp only
  split_ifs with hc
  · intro hactF
    exact absurd hactF (by exact Bool.noConfusion)
  · intro hact hcid
    by_contra hne
    exact hc ⟨hcid, hact, hne⟩

/-- Reactivating the rows whose id is `rid0` as the fixed row `rea` keeps
Invariant A provided the unique constraint accepts the result and every
already-active row of `rea`'s employee bears `rea`'s code. -/
lemma invA_reactivate {l : List NCRow} {ciId : Nat} {ncL : String} (rea : NCRow) (rid0 : Nat)
    (hrea : rea.ativo = true ∧ rea.colaborador_id = ciId ∧ rea.nc = ncL)
    (hinv : invA l)
    (hP : ∀ r ∈ l, r.ativo = true → r.colaborador_id = ciId → r.nc = ncL)
    (huc : ucOK (l.map (fun r => if r.rid = rid0 then rea else r))) :
    invA (l.map (fun r => if r.rid = rid0 then rea else r)) := by
  unfold invA ucOK at *
  rw [List.pairwise_map]
  have hk := List.pairwise_map.mp (List.pairwise_map.mp huc)
  refine List.Pairwise.imp_of_mem ?_ (hinv.and hk)
  intro a b ha hb hab
  obtain ⟨hr, hkey⟩ := hab
  try dsimp only
  try dsimp only at hkey
  intro hacta hactb hceq
  by_cases ha0 : a.rid = rid0 <;> by_cases hb0 : b.rid = rid0
  · rw [if_pos ha0, if_pos hb0] at hkey
    exact hkey rfl
  · rw [if_pos ha0] at hacta hceq
    rw [if_neg hb0] at hactb hceq
    rw [if_pos ha0, if_neg hb0] at hkey
    have hbc : b.colaborador_id = ciId := hceq.symm.trans hrea.2.1
    have hbn : b.nc = ncL := hP b hb hactb hbc
    have hkk : NCRow.ucKey rea = NCRow.ucKey b := by
      unfold NCRow.ucKey
      rw [hbn, hrea.2.2, hactb, hrea.1, hbc, hrea.2.1]
    exact hkey hkk
  · rw [if_neg ha0] at hacta hceq
    rw [if_pos hb0] at hactb hceq
    rw [if_neg ha0, if_pos hb0] at hkey
    have hac : a.colaborador_id = ciId := hceq.trans hrea.2.1
    have han : a.nc = ncL := hP a ha hacta hac
    have hkk : NCRow.ucKey a = NCRow.ucKey rea := by
      unfold NCRow.ucKey
      rw [han, hrea.2.2, hacta, hrea.1, hac, hrea.2.1]
    exact hkey hkk
  · rw [if_neg ha0] at hacta hceq
    rw [if_neg hb0] at hactb hceq
    exact hr hacta hactb hceq

/-- Appending a fresh active row keeps Invariant A provided the unique
constraint accepts the result and every already-active row of the new row's
employee bears the new row's code. -/
lemma invA_insert {l : List NCRow} {ciId : Nat} {ncL : String} (novo : NCRow)
    (hnovo : novo.ativo = true ∧ novo.colaborador_id = ciId ∧ novo.nc = ncL)
    (hinv : invA l)
    (hP : ∀ r ∈ l, r.ativo = true → r.colaborador_id = ciId → r.nc = ncL)
    (huc : ucOK (l ++ [novo])) : invA (l ++ [novo]) := by
  unfold invA ucOK at *
  rw [List.pairwise_append]
  refine ⟨hinv, List.pairwise_singleton _ _, ?_⟩
  intro a ha b hb
  rw [List.mem_singleton] at hb
  subst hb
  intro hacta hactb hceq
  have hac : a.colaborador_id = ciId := hceq.trans hnovo.2.1
  have han : a.nc = ncL := hP a ha hacta hac
  have hkk : NCRow.ucKey a = NCRow.ucKey b := by
    unfold NCRow.ucKey
    rw [han, hnovo.2.2, hacta, hnovo.1, hac, hnovo.2.1]
  rw [List.map_append] at huc
  exact List.disjoint_of_nodup_append huc (List.mem_map_of_mem _ ha)
    (by rw [hkk]; exact List.mem_singleton.mpr rfl)

lemma adicionar_core_invA (today : Nat) (db : DB) (ciId : Nat) (ncL empL : String)
    (motivo : Option String) (h : invA db.ncs) :
    invA (adicionar_core today db ciId ncL empL motivo).2.ncs := by
  unfold adicionar_core
  try dsimp only
  split
  case _ ex heq =>
    try dsimp only
    split_ifs with huc
    · have hmem := List.mem_filter.mp (maxByDataInicio_mem heq)
      have hexp := of_decide_eq_true hmem.2
      exact invA_reactivate _ ex.rid ⟨rfl, hexp.1, hexp.2.1⟩
        (adicionar_deactivate_invA today ciId ncL h)
        (adicionar_deactivate_prop today ciId ncL db.ncs) huc
    · exact h
  case _ heq =>
    try dsimp only
    split_ifs with huc
    · exact invA_insert _ ⟨rfl, rfl, rfl⟩
        (adicionar_deactivate_invA today ciId ncL h)
        (adicionar_deactivate_prop today ciId ncL db.ncs) huc
    · exact h

lemma adicionar_nc_invA (cfg : List String) (today : Nat) (db : DB) (ciId : Nat)
    (nc empresa : String) (motivo : Option String) (h : invA db.ncs) :
    invA (adicionar_nc cfg today db ciId nc empresa motivo).2.ncs := by
  unfold adicionar_nc
  repeat' split
  all_goals first
    | exact h
    | exact adicionar_core_invA today db ciId _ _ motivo h

lemma importar_sweep_step_invA (today cid : Nat) (acc : List NCRow) (a : NCRow)
    (h : invA acc) : invA (importar_sweep_step today cid acc a) := by
  unfold importar_sweep_step
  split_ifs
  · exact List.Pairwise.sublist (List.filter_sublist _) h
  · refine invA_map _ (fun r => by split_ifs <;> rfl) (fun r => ?_) h
    split_ifs
    · intro hactF
      exact hactF.elim
    · exact id

lemma importar_sweep_step_allowed (today cid : Nat) (acc : List NCRow) (a : NCRow)
    (rest : List Nat)
    (hP : ∀ r ∈ acc, r.ativo = true → r.colaborador_id = cid → r.rid ∈ a.rid :: rest) :
    ∀ r ∈ importar_sweep_step today cid acc a,
      r.ativo = true → r.colaborador_id = cid → r.rid ∈ rest := by
  unfold importar_sweep_step
  split_ifs
  · intro r hr hact hcid
    have hm := List.mem_filter.mp hr
    have hne : r.rid ≠ a.rid := of_decide_eq_true hm.2
    rcases List.mem_cons.mp (hP r hm.1 hact hcid) with h1 | h1
    · exact absurd h1 hne
    · exact h1
  · intro r hr hact hcid
    obtain ⟨q, hq, rfl⟩ := List.mem_map.mp hr
    by_cases hid : q.rid = a.rid
    · rw [if_pos hid] at hact
      exact absurd hact (by exact Bool.noConfusion)
    · rw [if_neg hid] at hact hcid ⊢
      rcases List.mem_cons.mp (hP q hq hact hcid) with h1 | h1
      · exact absurd h1 hid
      · exact h1

lemma importar_sweep_fold_invA (today cid : Nat) (snap : List NCRow) :
    ∀ (acc : List NCRow), invA acc →
      (∀ r ∈ acc, r.ativo = true → r.colaborador_id = cid → r.rid ∈ snap.map NCRow.rid) →
      invA (snap.foldl (importar_sweep_step today cid) acc) ∧
      (∀ r ∈ snap.foldl (importar_sweep_step today cid) acc,
        r.ativo = true → r.colaborador_id = cid → False) := by
  induction snap with
  | nil =>
    intro acc h hP
    exact ⟨h, fun r hr hact hcid => absurd (hP r hr hact hcid) (List.not_mem_nil _)⟩
  | cons a rest ih =>
    intro acc h hP
    rw [List.foldl_cons]
    exact ih _ (importar_sweep_step_invA today cid acc a h)
      (importar_sweep_step_allowed today cid acc a (rest.map NCRow.rid) hP)

lemma importar_sweep_step_sub (today cid : Nat) (acc : List NCRow) (a : NCRow) :
    ((importar_sweep_step today cid acc a).map NCRow.rid).Sublist (acc.map NCRow.rid) := by
  unfold importar_sweep_step
  split_ifs
  · exact (List.filter_sublist _).map NCRow.rid
  · rw [map_rid_map (fun r => by split_ifs <;> rfl)]

lemma importar_sweep_fold_sub (today cid : Nat) (snap : List NCRow) :
    ∀ acc : List NCRow,
      ((snap.foldl (importar_sweep_step today cid) acc).map NCRow.rid).Sublist
        (acc.map NCRow.rid) := by
  induction snap with
  | nil =>
    intro acc
    exact List.Sublist.refl _
  | cons a rest ih =>
    intro acc
    rw [List.foldl_cons]
    exact (ih _).trans (importar_sweep_step_sub today cid acc a)

lemma ridcol_lt {db : DB} {X : List NCRow}
    (hsub : (X.map NCRow.rid).Sublist (db.ncs.map NCRow.rid)) (hw : wfRids db) :
    ∀ r ∈ X, r.rid < db.nextRid := by
  intro r hr
  obtain ⟨q, hq, hqe⟩ := List.mem_map.mp (hsub.subset (List.mem_map_of_mem NCRow.rid hr))
  exact hqe ▸ hw.2 q hq

/-- Activating the rows whose id is `ex.rid` (the row `find?` located for
the import's employee) keeps Invariant A: row ids are unique, so only `ex`
itself — a row of the processed employee — is touched, and the sweep left
that employee with no active rows at all. -/
lemma invA_activate_unique {l : List NCRow} {cid : Nat} {ex : NCRow} (g : NCRow → NCRow)
    (hg : ∀ r, (g r).colaborador_id = r.colaborador_id)
    (hexm : ex ∈ l) (hexcid : ex.colaborador_id = cid)
    (hnodup : (l.map NCRow.rid).Nodup)
    (hinv : invA l)
    (hnone : ∀ r ∈ l, r.ativo = true → r.colaborador_id = cid → False) :
    invA (l.map (fun r => if r.rid = ex.rid then g r else r)) := by
  unfold invA at *
  rw [List.pairwise_map]
  have hrp : List.Pairwise (fun a b : NCRow => NCRow.rid a ≠ NCRow.rid b) l :=
    List.pairwise_map.mp hnodup
  refine List.Pairwise.imp_of_mem ?_ (hinv.and hrp)
  intro a b ha hb hab
  obtain ⟨hr, hrid⟩ := hab
  try dsimp only
  intro hacta hactb hceq
  by_cases ha0 : a.rid = ex.rid <;> by_cases hb0 : b.rid = ex.rid
  · exact hrid (ha0.trans hb0.symm)
  · rw [if_pos ha0] at hacta hceq
    rw [if_neg hb0] at hactb hceq
    have haex : a = ex := List.inj_on_of_nodup_map hnodup ha hexm ha0
    rw [hg a, haex] at hceq
    exact hnone b hb hactb (hceq.symm.trans hexcid)
  · rw [if_neg ha0] at hacta hceq
    rw [if_pos hb0] at hactb hceq
    have hbex : b = ex := List.inj_on_of_nodup_map hnodup hb hexm hb0
    rw [hg b, hbex] at hceq
    exact hnone a ha hacta (hceq.trans hexcid)
  · rw [if_neg ha0] at hacta hceq
    rw [if_neg hb0] at hactb hceq
    exact hr hacta hactb hceq

/-- Appending a fresh active row for an employee with no active rows keeps
Invariant A; no unique-constraint hypothesis is needed. -/
lemma invA_insert_none {l : List NCRow} {cid : Nat} (novo : NCRow)
    (hcid : novo.colaborador_id = cid)
    (hinv : invA l)
    (hnone : ∀ r ∈ l, r.ativo = true → r.colaborador_id = cid → False) :
    invA (l ++ [novo]) := by
  unfold invA at *
  rw [List.pairwise_append]
  refine ⟨hinv, List.pairwise_singleton _ _, ?_⟩
  intro a ha b hb
  rw [List.mem_singleton] at hb
  subst hb
  intro hacta hactb hceq
  exact hnone a ha hacta (hceq.trans hcid)

lemma importar_ativos_nc_invA (cfg : List String) (today rowNum cid : Nat)
    (nc codE : String) (dA : Option Nat) (db : DB) (res : ResultadoAtivos)
    (h : invA db.ncs) (hw : wfRids db) :
    invA (importar_ativos_nc cfg today rowNum cid nc codE dA db res).1.ncs := by
  unfold importar_ativos_nc
  try dsimp only
  split
  · exact h
  try dsimp only
  obtain ⟨hinv1, hnone1⟩ := importar_sweep_fold_invA today cid
    (db.ncs.filter (fun r => decide (r.colaborador_id = cid ∧ r.ativo = true))) db.ncs h
    (fun r hr hact hcid => List.mem_map_of_mem NCRow.rid
      (List.mem_filter.mpr ⟨hr, by simp [hact, hcid]⟩))
  have hnodup1 := hw.1.sublist (importar_sweep_fold_sub today cid
    (db.ncs.filter (fun r => decide (r.colaborador_id = cid ∧ r.ativo = true))) db.ncs)
  split
  case _ ex hfind =>
    have hexm := List.mem_of_find?_eq_some hfind
    have hexb := List.find?_some hfind
    have hexp : ex.nc = nc ∧ ex.colaborador_id = cid ∧ ¬ ex.ativo = true :=
      of_decide_eq_true hexb
    split_ifs
    · exact invA_activate_unique _ (fun r => rfl) hexm hexp.2.1 hnodup1 hinv1 hnone1
    · exact invA_activate_unique _ (fun r => rfl) hexm hexp.2.1 hnodup1 hinv1 hnone1
  case _ hfind =>
    split_ifs
    · exact invA_insert_none _ rfl hinv1 hnone1
    · exact hinv1

lemma importar_ativos_nc_wf (cfg : List String) (today rowNum cid : Nat)
    (nc codE : String) (dA : Option Nat) (db : DB) (res : ResultadoAtivos)
    (hw : wfRids db) :
    wfRids (importar_ativos_nc cfg today rowNum cid nc codE dA db res).1 := by
  unfold importar_ativos_nc
  try dsimp only
  split
  · exact hw
  try dsimp only
  have hsub1 := importar_sweep_fold_sub today cid
    (db.ncs.filter (fun r => decide (r.colaborador_id = cid ∧ r.ativo = true))) db.ncs
  have hnodup1 := hw.1.sublist hsub1
  have hlt1 := ridcol_lt hsub1 hw
  split
  case _ ex hfind =>
    split_ifs
    all_goals
      refine ⟨?_, ?_⟩
      · rw [map_rid_map (fun r => by split_ifs <;> rfl)]
        exact hnodup1
      · intro r hr
        obtain ⟨q, hq, rfl⟩ := List.mem_map.mp hr
        have hql := hlt1 q hq
        split_ifs <;> exact hql
  case _ hfind =>
    split_ifs
    · refine ⟨?_, ?_⟩
      · rw [List.map_append]
        refine List.Nodup.append hnodup1 (List.nodup_singleton _) ?_
        intro x hx hx1
        obtain ⟨q, hq, rfl⟩ := List.mem_map.mp hx
        rw [List.map_cons, List.map_nil, List.mem_singleton] at hx1
        exact absurd hx1 (Nat.ne_of_lt (hlt1 q hq))
      · intro r hr
        rcases List.mem_append.mp hr with h1 | h1
        · exact Nat.lt_succ_of_lt (hlt1 r h1)
        · rw [List.mem_singleton] at h1
          subst h1
          exact Nat.lt_succ_self _
    · exact ⟨hnodup1, hlt1⟩

lemma importar_ativos_row_inv (cfg : List String) (today rowNum : Nat)
    (st : DB × ResultadoAtivos) (row : CsvRow)
    (h : invA st.1.ncs) (hw : wfRids st.1) :
    invA (importar_ativos_row cfg today rowNum st row).1.ncs ∧
      wfRids (importar_ativos_row cfg today rowNum st row).1 := by
  unfold importar_ativos_row
  try dsimp only
  split
  · exact ⟨h, hw⟩
  split
  · exact ⟨h, hw⟩
  split
  · exact ⟨h, hw⟩
  try dsimp only
  split
  · exact ⟨importar_ativos_nc_invA cfg today rowNum _ _ _ _ _ _ h hw,
      importar_ativos_nc_wf cfg today rowNum _ _ _ _ _ _ hw⟩
  · exact ⟨importar_ativos_nc_invA cfg today rowNum _ _ _ _ _ _ h hw,
      importar_ativos_nc_wf cfg today rowNum _ _ _ _ _ _ hw⟩

lemma importar_ativos_rows_inv (cfg : List String) (today : Nat) (rows : List CsvRow) :
    ∀ (n : Nat) (st : DB × ResultadoAtivos), invA st.1.ncs → wfRids st.1 →
      invA (importar_ativos_rows cfg today n st rows).1.ncs ∧
        wfRids (importar_ativos_rows cfg today n st rows).1 := by
  induction rows with
  | nil =>
    intro n st h hw
    exact ⟨h, hw⟩
  | cons row rest ih =>
    intro n st h hw
    have hr := importar_ativos_row_inv cfg today n st row h hw
    exact ih (n + 1) _ hr.1 hr.2

lemma importar_ativos_invA (cfg : List String) (today : Nat) (db : DB) (rows : List CsvRow)
    (h : invA db.ncs) (hw : wfRids db) :
    invA (importar_ativos cfg today db rows).2.ncs := by
  unfold importar_ativos
  try dsimp only
  split_ifs
  all_goals first
    | exact (importar_ativos_rows_inv cfg today rows 2 (db, ⟨true, 0, 0, 0, []⟩) h hw).1
    | exact h

/-! ## Claim theorems and witnesses -/

/-- C1: with valid inputs (employee found and not deleted, code and company
cleaning successfully), when another employee holds an active Registration
with the cleaned code, `adicionar_nc` raises `NCEmUsoError` naming the code
and the returned store is exactly the input store — no record changes; in
the spec's concrete scenario, after the conflicting registration is
deactivated, the same call succeeds and returns the now-active Registration
for the second employee, the first employee ending with no active
registration. -/
theorem C1_assign_conflict_no_mutation :
    (∀ cfg today (db : DB) ciId nc empresa motivo ncLimpo emp ci other,
        obter_por_id db ciId = some ci → ci.is_deleted = false →
        clean_nc nc = some ncLimpo → clean_empresa cfg empresa = some emp →
        other ∈ db.ncs → other.ativo = true → other.nc = ncLimpo →
        other.colaborador_id ≠ ciId → ciId ≠ 0 →
        adicionar_nc cfg today db ciId nc empresa motivo =
          (.error (.ncEmUso ncLimpo), db)) ∧
    (let db0 : DB := ⟨[⟨1, "Ana", "52998224725", none, none, none, none, false, none⟩,
        ⟨2, "Bia", "11144477735", none, none, none, none, false, none⟩],
       [⟨1, "123", "106", 10, none, true, none, 1⟩], [], [], 2, 3⟩
     adicionar_nc validCompanyCodes 20 db0 2 "123" "106" none =
       (.error (.ncEmUso "123"), db0) ∧
     (let db1 : DB := { db0 with
        ncs := [NCRow.desativar 20 ⟨1, "123", "106", 10, none, true, none, 1⟩ none none] }
      let out := adicionar_nc validCompanyCodes 20 db1 2 "123" "106" none
      out.1 = .ok ⟨2, "123", "106", 20, none, true, some "NOVO NC", 2⟩ ∧
      out.2.ncs = db1.ncs ++ [⟨2, "123", "106", 20, none, true, some "NOVO NC", 2⟩] ∧
      nc_ativo out.2 2 = some ⟨2, "123", "106", 20, none, true, some "NOVO NC", 2⟩ ∧
      nc_ativo out.2 1 = none)) := by
  constructor
  · intro cfg today db ciId nc empresa motivo ncLimpo emp ci other
    intro hci hdel hnc hemp hmem hativo honc hcid hci0
    have huse : nc_em_uso db ncLimpo (some ciId) = true := by
      unfold nc_em_uso
      rw [clean_nc_idem hnc]
      refine List.any_eq_true.mpr ⟨other, hmem, ?_⟩
      simp [honc, hativo, hcid]
    unfold adicionar_nc
    rw [hci]
    dsimp only
    rw [hdel]
    rw [if_neg Bool.false_ne_true, hnc, hemp]
    dsimp only
    rw [if_pos huse]
  · dsimp only
    refine ⟨by decide, by decide, by decide, by decide, by decide⟩

/-- Witness for C1's conflict branch: the concrete two-employee store where
employee 1 holds code `123` active and employee 2 requests it. -/
theorem C1_assign_conflict_witness :
    adicionar_nc validCompanyCodes 20
      ⟨[⟨1, "Ana", "52998224725", none, none, none, none, false, none⟩,
        ⟨2, "Bia", "11144477735", none, none, none, none, false, none⟩,
        ⟨3, "Caio", "39053344705", none, none, none, none, false, none⟩],
       [⟨1, "123", "106", 10, none, true, none, 1⟩], [], [], 2, 4⟩ 2 "123" "106" none =
      (.error (.ncEmUso "123"),
       ⟨[⟨1, "Ana", "52998224725", none, none, none, none, false, none⟩,
        ⟨2, "Bia", "11144477735", none, none, none, none, false, none⟩,
        ⟨3, "Caio", "39053344705", none, none, none, none, false, none⟩],
       [⟨1, "123", "106", 10, none, true, none, 1⟩], [], [], 2, 4⟩) :=
  C1_assign_conflict_no_mutation.1 validCompanyCodes 20 _ 2 "123" "106" none "123" "106"
    ⟨2, "Bia", "11144477735", none, none, none, none, false, none⟩
    ⟨1, "123", "106", 10, none, true, none, 1⟩
    (by decide) rfl (by decide) (by decide) (by decide) rfl rfl (by decide) (by decide)

/-- C7: `clean_cpf` returns the cleaned 11-digit string exactly when, after
stripping non-digits, 11 digits remain, they are not all identical, and both
trailing check digits match the mod-11 algorithm (weights 10..2 over the
first 9 digits, then 11..2 over the first 10); a valid ID passes, a
repeated-digit ID is rejected, and flipping the final digit of a valid ID is
rejected. -/
theorem C7_clean_tax_id :
    (∀ s t, clean_cpf s = some t ↔
      ((pyDigits s).length = 11 ∧ t = String.mk (pyDigits s) ∧
       pyDigits s ≠ List.replicate 11 ((pyDigits s).headD '0') ∧
       ((pyDigits s).map charVal).getD 9 0 =
         specCheckDigit (((pyDigits s).map charVal).take 9) [10, 9, 8, 7, 6, 5, 4, 3, 2] ∧
       ((pyDigits s).map charVal).getD 10 0 =
         specCheckDigit (((pyDigits s).map charVal).take 10)
           [11, 10, 9, 8, 7, 6, 5, 4, 3, 2])) ∧
    clean_cpf "123.456.789-09" = some "12345678909" ∧
    clean_cpf "11111111111" = none ∧
    clean_cpf "12345678908" = none := by
  refine ⟨?_, by decide, by decide, by decide⟩
  intro s t
  unfold clean_cpf
  by_cases hs : s = ""
  · subst hs
    constructor
    · intro hx; exact Option.noConfusion hx
    · rintro ⟨h11, -⟩; exact absurd h11 (by decide)
  · rw [if_neg hs]
    dsimp only
    rw [pyDigits_pyStrip]
    have hdig := pyDigits_digits s
    by_cases h11 : (pyDigits s).length = 11
    · rw [if_neg (fun hx => hx h11)]
      by_cases hv : is_valid_cpf (String.mk (pyDigits s)) = true
      · rw [if_neg (fun hx => hx hv)]
        obtain ⟨hrep, hd1, hd2⟩ := (is_valid_cpf_mk h11 hdig).mp hv
        constructor
        · intro hx
          exact ⟨h11, (Option.some.injEq _ _ ▸ hx).symm, hrep, hd1, hd2⟩
        · rintro ⟨-, rfl, -⟩
          rfl
      · rw [if_pos (fun hx => hv hx)]
        constructor
        · intro hx; exact Option.noConfusion hx
        · rintro ⟨-, -, hrep, hd1, hd2⟩
          exact absurd ((is_valid_cpf_mk h11 hdig).mpr ⟨hrep, hd1, hd2⟩) hv
    · rw [if_pos (show ({ data := pyDigits s } : String).length ≠ 11 from h11)]
      constructor
      · intro hx; exact Option.noConfusion hx
      · rintro ⟨he, -⟩; exact absurd he h11

/-- Witness for C7's characterisation at a concrete valid tax ID. -/
theorem C7_clean_tax_id_witness :
    clean_cpf "529.982.247-25" = some "52998224725" :=
  (C7_clean_tax_id.1 "529.982.247-25" "52998224725").mpr (by decide)

/-- C6: the ordered decision table of `clean_valor_monetario`: symbol and
`="..."` stripping; comma-and-dot is Brazilian format; comma only is the
decimal mark; dot only is the decimal mark when at most two fraction digits
follow, else a thousands separator; no separator parses as an integer that
is divided by 100 exactly when its absolute value is at least 100; and
unparseable input yields zero (the function is total, so it never raises). -/
theorem C6_parse_money :
    clean_valor_monetario "R$ 1.234,56" = 1234.56 ∧
    clean_valor_monetario "5622" = 56.22 ∧
    clean_valor_monetario "55" = 55.0 ∧
    clean_valor_monetario "=\"5622\"" = 56.22 ∧
    clean_valor_monetario "1234,56" = 1234.56 ∧
    clean_valor_monetario "1234.56" = 1234.56 ∧
    clean_valor_monetario "1.234" = 1234 ∧
    clean_valor_monetario "1.234.567" = 1234567 ∧
    clean_valor_monetario "not a number" = 0 ∧
    (∀ l : List Char, l ≠ [] → (∀ c ∈ l, c.isDigit = true) →
      clean_valor_monetario (String.mk l) =
        if 100 ≤ natOfDigits l then (natOfDigits l : ℚ) / 100 else (natOfDigits l : ℚ)) := by
  refine ⟨?_, ?_, ?_, ?_, ?_, ?_, ?_, ?_, rfl, clean_valor_digits⟩
  · have h : clean_valor_monetario "R$ 1.234,56" =
        ((1234 : Nat) : ℚ) + ((56 : Nat) : ℚ) / 10 ^ 2 := rfl
    rw [h]; norm_num
  · have h : clean_valor_monetario "5622" = ((5622 : Int) : ℚ) / 100 := rfl
    rw [h]; norm_num
  · have h : clean_valor_monetario "55" = ((55 : Int) : ℚ) := rfl
    rw [h]; norm_num
  · have h : clean_valor_monetario "=\"5622\"" = ((5622 : Int) : ℚ) / 100 := rfl
    rw [h]; norm_num
  · have h : clean_valor_monetario "1234,56" =
        ((1234 : Nat) : ℚ) + ((56 : Nat) : ℚ) / 10 ^ 2 := rfl
    rw [h]; norm_num
  · have h : clean_valor_monetario "1234.56" =
        ((1234 : Nat) : ℚ) + ((56 : Nat) : ℚ) / 10 ^ 2 := rfl
    rw [h]; norm_num
  · have h : clean_valor_monetario "1.234" = ((1234 : Nat) : ℚ) := rfl
    rw [h]; norm_num
  · have h : clean_valor_monetario "1.234.567" = ((1234567 : Nat) : ℚ) := rfl
    rw [h]; norm_num

/-- Witness for C6's quantified no-separator branch at the concrete digit
string `777`. -/
theorem C6_parse_money_witness :
    clean_valor_monetario (String.mk ['7', '7', '7']) =
      if 100 ≤ natOfDigits ['7', '7', '7'] then (natOfDigits ['7', '7', '7'] : ℚ) / 100
      else (natOfDigits ['7', '7', '7'] : ℚ) :=
  C6_parse_money.2.2.2.2.2.2.2.2.2 ['7', '7', '7'] (by decide) (by decide)

/-- C5: the claim says `parse_date(45000)` (Excel serial, epoch 1899-12-30,
accepted range `[1, 50000]`, year within `[1900, 2100]`) returns the
corresponding date. The code disagrees with the claim and with its own
docstring (`>>> parse_date(45000)` → `datetime.date(2023, 3, 15)`): the
`_EXCEL_BASE + date.fromordinal(...)` expression adds two `date` objects,
the `TypeError` is swallowed, and every numeric input yields `None`; the
intended computation does produce 2023-03-15. The textual day-first path is
intact: `parse_date("31/12/2023") = 2023-12-31` via the first format,
whatever the pandas fallback does. -/
theorem C5_parse_date_excel_serial :
    parse_date_num 45000 = none ∧
    (∀ x : ℚ, parse_date_num x = none) ∧
    convert_excel_date_intended 45000 = some ⟨2023, 3, 15⟩ ∧
    (∀ pdParse, parse_date_str pdParse "31/12/2023" = some ⟨2023, 12, 31⟩) := by
  refine ⟨by decide, ?_, by decide, fun pdParse => rfl⟩
  intro x
  simp only [parse_date_num, convert_excel_date, pyDateAddDate]
  split_ifs <;> rfl

/-- C10: the bulk-import path does not verify tax-ID check digits.
`11111111111` fails the Identity Resolver's `clean_cpf` (all digits equal),
yet `_clean_cpf` merely strips formatting, and `importar_ativos` accepts the
row and creates an Employee carrying that tax ID, with no row error. -/
theorem C10_import_accepts_bad_checksum :
    clean_cpf "11111111111" = none ∧
    _clean_cpf "111.111.111-11" = "11111111111" ∧
    (let out := importar_ativos validCompanyCodes 20 ⟨[], [], [], [], 1, 1⟩
        [⟨"111.111.111-11", "Zed", "5", "", "", "", "", "106"⟩]
     out.1.erros = [] ∧ out.1.importados = 1 ∧
     out.2.colaboradores.map Colaborador.cpf = ["11111111111"]) := by
  exact ⟨by decide, by decide, by decide⟩

/-- C4 counterexample: `importar_ativos` deletes a Registration row. The
employee holds code 7 active (row id 1) and an inactive duplicate of code 7
(row id 2); importing a row that moves them to code 8 deletes row id 1 from
the store (import_functions.py line 216) instead of merely deactivating it,
and the batch reports no error. -/
theorem C4_counterexample :
    (let db : DB :=
      ⟨[⟨1, "Ana", "52998224725", none, none, none, none, false, none⟩],
       [⟨1, "7", "106", 10, none, true, none, 1⟩,
        ⟨2, "7", "106", 5, some 9, false, none, 1⟩],
       [], [], 3, 2⟩
     let out := importar_ativos validCompanyCodes 20 db
       [⟨"529.982.247-25", "Ana", "8", "", "", "", "", "106"⟩]
     (db.ncs.map NCRow.rid).contains 1 = true ∧
     (out.2.ncs.map NCRow.rid).contains 1 = false ∧
     out.1.erros = [] ∧ out.1.sucesso = true) := by
  decide

/-- C9 counterexample: a `importar_desligados` row whose tax ID fails
validation (12 digits) is skipped silently — the batch records **no**
row-level error, and no `ImportacaoLog` is written, contradicting the claim
for this import path. -/
theorem C9_counterexample :
    (let out := importar_desligados 20 ⟨[], [], [], [], 1, 1⟩ [⟨"123456789012"⟩]
     out.1.total = 1 ∧ out.1.erros = [] ∧ out.1.processados = 0 ∧
     out.1.sucesso = true ∧ out.2.logs = []) := by
  decide

/-- C3 (code evaluated at the failing input): employee 1 is soft-deleted,
its most recent registration bears code `123` (inactive), and employee 2
now holds `123` active. The claim requires restore to clear the DELETED tag
but leave employee 1 with **no** active registration. Instead,
`restaurar_colaborador` returns `True` and reactivates the contested
registration — both employees end with `123` active, violating Invariant B —
because models.py line 346 calls the instance method `nc_em_uso` on the
class `CIService`, shifting every argument: the executed probe
(`restaurar_probe`) checks code `"1"` (the employee id) instead of `"123"`,
while a correctly-called `nc_em_uso("123", excluir_ci_id=1)` does flag the
conflict. Restore on the non-deleted employee 2 is a no-op returning
`False`, as claimed. -/
theorem C3_restore_takes_contested_code :
    (let db : DB :=
      ⟨[⟨1, "Ana", "52998224725", none, none, none, none, true, some "x"⟩,
        ⟨2, "Bia", "11144477735", none, none, none, none, false, none⟩],
       [⟨1, "123", "106", 10, some 15, false, none, 1⟩,
        ⟨2, "123", "106", 16, none, true, none, 2⟩],
       [], [], 3, 3⟩
     restaurar_probe db 1 = false ∧
     nc_em_uso db "123" (some 1) = true ∧
     (restaurar_colaborador db 1).1 = .ok true ∧
     (let db' := (restaurar_colaborador db 1).2
      ((obter_por_id db' 1).map Colaborador.is_deleted) = some false ∧
      (db'.ncs.filter (fun r => decide (r.nc = "123" ∧ r.ativo = true))).map
        NCRow.colaborador_id = [1, 2]) ∧
     restaurar_colaborador db 2 = (.ok false, db)) := by
  dsimp only
  decide

/-- C4 amended: with `importar_ativos`'s duplicate-sweep deletion
(import_functions.py line 216) excepted — see its counterexample — every
other lifecycle transition keeps every Registration row: `desativar` only
flips the `ativo` flag and sets the end date on the same row; `adicionar_nc`
keeps every existing row id (adding at most the one fresh row id), and when
the (employee, code) pair recurs with a prior inactive row it reactivates
that row instead of inserting; `restaurar_colaborador`, `excluir_soft` and
the whole of `importar_desligados` keep the row-id column unchanged. -/
theorem C4_registrations_never_deleted_amended :
    (∀ today (r : NCRow) df m,
        (NCRow.desativar today r df m).rid = r.rid ∧
        (NCRow.desativar today r df m).nc = r.nc ∧
        (NCRow.desativar today r df m).colaborador_id = r.colaborador_id ∧
        (NCRow.desativar today r df m).data_inicio = r.data_inicio ∧
        (NCRow.desativar today r df m).ativo = false) ∧
    (∀ cfg today (db : DB) ciId nc empresa motivo,
        ((adicionar_nc cfg today db ciId nc empresa motivo).2.ncs.map NCRow.rid
            = db.ncs.map NCRow.rid) ∨
        ((adicionar_nc cfg today db ciId nc empresa motivo).2.ncs.map NCRow.rid
            = db.ncs.map NCRow.rid ++ [db.nextRid])) ∧
    (∀ cfg today (db : DB) ciId nc empresa motivo ncL,
        clean_nc nc = some ncL →
        (∃ r ∈ db.ncs, r.colaborador_id = ciId ∧ r.nc = ncL ∧ r.ativo = false) →
        (adicionar_nc cfg today db ciId nc empresa motivo).2.ncs.map NCRow.rid
          = db.ncs.map NCRow.rid) ∧
    (∀ (db : DB) ciId,
        (restaurar_colaborador db ciId).2.ncs.map NCRow.rid = db.ncs.map NCRow.rid) ∧
    (∀ today (db : DB) ciId motivo,
        (excluir_soft today db ciId motivo).ncs.map NCRow.rid = db.ncs.map NCRow.rid) ∧
    (∀ today (db : DB) rows,
        (importar_desligados today db rows).2.ncs.map NCRow.rid = db.ncs.map NCRow.rid) :=
  ⟨fun _ _ _ _ => ⟨rfl, rfl, rfl, rfl, rfl⟩,
   fun cfg today db ciId nc empresa motivo =>
     adicionar_nc_rids cfg today db ciId nc empresa motivo,
   fun cfg today db ciId nc empresa motivo ncL hnc hex =>
     adicionar_nc_reuses cfg today db ciId nc empresa motivo ncL hnc hex,
   fun db ciId => restaurar_colaborador_rids db ciId,
   fun today db ciId motivo => excluir_soft_rids today db ciId motivo,
   fun today db rows => importar_desligados_rids today db rows⟩

/-- Witness for C4's amended reuse clause: employee 1 re-requests code `77`
for which an inactive row (id 5) exists; the row-id column is unchanged, so
the prior row was reactivated and nothing was inserted or deleted. -/
theorem C4_registrations_never_deleted_amended_witness :
    (adicionar_nc validCompanyCodes 30
        ⟨[⟨1, "Ana", "52998224725", none, none, none, none, false, none⟩],
         [⟨5, "77", "106", 10, some 20, false, none, 1⟩], [], [], 6, 2⟩
        1 "77" "106" none).2.ncs.map NCRow.rid
      = [⟨5, "77", "106", 10, some 20, false, none, 1⟩].map NCRow.rid :=
  C4_registrations_never_deleted_amended.2.2.1 validCompanyCodes 30
    ⟨[⟨1, "Ana", "52998224725", none, none, none, none, false, none⟩],
     [⟨5, "77", "106", 10, some 20, false, none, 1⟩], [], [], 6, 2⟩
    1 "77" "106" none "77" (by decide)
    ⟨⟨5, "77", "106", 10, some 20, false, none, 1⟩, by decide, rfl, rfl, rfl⟩

/-- C2: Invariant A — at most one active Registration per employee — is
preserved by `adicionar_nc` (every outcome: each error path hands back the
untouched store, and on success the reactivated or inserted row is the
employee's only active one, the commit's unique-constraint check ruling out
the residual duplicate); in the claim's tricky case (an active registration
with the requested code *plus* an inactive duplicate row for the same
(employee, code) pair) the reactivation collides with the active row on the
`(nc, ativo, colaborador_id)` unique constraint, so the call fails with
`ValidacaoError` and the store — still satisfying Invariant A — is
unchanged; and every row processed by `importar_ativos` (and the whole
import) preserves Invariant A on stores with well-formed row ids. -/
theorem C2_invariant_A :
    (∀ cfg today (db : DB) ciId nc empresa motivo, invA db.ncs →
        invA (adicionar_nc cfg today db ciId nc empresa motivo).2.ncs) ∧
    (let db2c : DB :=
       ⟨[⟨1, "Ana", "52998224725", none, none, none, none, false, none⟩],
        [⟨1, "5", "106", 10, none, true, none, 1⟩,
         ⟨2, "5", "106", 3, some 8, false, none, 1⟩],
        [], [], 3, 2⟩
     invA db2c.ncs ∧
     adicionar_nc validCompanyCodes 50 db2c 1 "5" "106" none =
       (.error (.validacao "Erro ao adicionar NC"), db2c)) ∧
    (∀ cfg today rowNum (st : DB × ResultadoAtivos) row,
        invA st.1.ncs → wfRids st.1 →
        invA (importar_ativos_row cfg today rowNum st row).1.ncs) ∧
    (∀ cfg today (db : DB) rows, invA db.ncs → wfRids db →
        invA (importar_ativos cfg today db rows).2.ncs) := by
  refine ⟨fun cfg today db ciId nc empresa motivo h =>
      adicionar_nc_invA cfg today db ciId nc empresa motivo h,
    ⟨by decide, by decide⟩,
    fun cfg today rowNum st row h hw =>
      (importar_ativos_row_inv cfg today rowNum st row h hw).1,
    fun cfg today db rows h hw => importar_ativos_invA cfg today db rows h hw⟩

/-- Witness for C2's `adicionar_nc` clause: a concrete successful move of
employee 4 from code `9` to code `15` keeps Invariant A. -/
theorem C2_invariant_A_witness :
    invA (adicionar_nc validCompanyCodes 60
        ⟨[⟨4, "Dora", "39053344705", none, none, none, none, false, none⟩],
         [⟨3, "9", "110", 12, none, true, none, 4⟩], [], [], 4, 5⟩
        4 "15" "110" none).2.ncs :=
  C2_invariant_A.1 validCompanyCodes 60
    ⟨[⟨4, "Dora", "39053344705", none, none, none, none, false, none⟩],
     [⟨3, "9", "110", 12, none, true, none, 4⟩], [], [], 4, 5⟩
    4 "15" "110" none (by decide)

/-- C9 amended: the claim is accurate for `importar_ativos` — a row failing
a required-field validation yields a row error carrying the row's *file
line* number (data rows are numbered from 2, the CSV header being line 1)
and the reason, the loop continues, and the concrete 10-row file whose
fifth data row has a 12-digit tax ID ends with 9 imported, 1 error, 9
persisted employees and active registrations, and an `ImportacaoLog` row
with status `PARCIAL` and the counts. It is wrong for `importar_desligados`:
a row whose tax ID fails validation is skipped by a bare `continue` with
**no** row error recorded, and that path never writes an `ImportacaoLog`. -/
theorem C9_row_errors_amended :
    (∀ cfg today rowNum (st : DB × ResultadoAtivos) row,
        _clean_cpf row.cpf = "" ∨ (_clean_cpf row.cpf).length ≠ 11 →
        importar_ativos_row cfg today rowNum st row =
          (st.1, ⟨st.2.sucesso, st.2.total + 1, st.2.importados, st.2.atualizados,
            st.2.erros ++
              ["Linha " ++ toString rowNum ++ ": CPF invalido '" ++ row.cpf ++ "'"]⟩)) ∧
    (let rows : List CsvRow :=
       [⟨"1", "A", "1", "", "", "", "", "106"⟩,
        ⟨"2", "B", "2", "", "", "", "", "106"⟩,
        ⟨"3", "C", "3", "", "", "", "", "106"⟩,
        ⟨"4", "D", "4", "", "", "", "", "106"⟩,
        ⟨"123456789012", "E", "5", "", "", "", "", "106"⟩,
        ⟨"6", "F", "6", "", "", "", "", "106"⟩,
        ⟨"7", "G", "7", "", "", "", "", "106"⟩,
        ⟨"8", "H", "8", "", "", "", "", "106"⟩,
        ⟨"9", "I", "9", "", "", "", "", "106"⟩,
        ⟨"12", "J", "10", "", "", "", "", "106"⟩]
     let out := importar_ativos validCompanyCodes 40 ⟨[], [], [], [], 1, 1⟩ rows
     out.1 = ⟨true, 10, 9, 0, ["Linha 6: CPF invalido '123456789012'"]⟩ ∧
     out.2.colaboradores.length = 9 ∧
     (out.2.ncs.filter (fun r => r.ativo)).length = 9 ∧
     out.2.logs = [⟨"ATIVOS", "PARCIAL", 10, 9, 1,
       some "Linha 6: CPF invalido '123456789012'"⟩]) ∧
    (∀ today (st : DB × ResultadoDesligados) row,
        _clean_cpf row.cpf = "" ∨ (_clean_cpf row.cpf).length ≠ 11 →
        importar_desligados_row today st row =
          (st.1, ⟨st.2.sucesso, st.2.total + 1, st.2.processados, st.2.erros⟩)) ∧
    (∀ today (db : DB) rows, (importar_desligados today db rows).2.logs = db.logs) := by
  refine ⟨?_, ?_, ?_, fun today db rows => importar_desligados_logs today db rows⟩
  · intro cfg today rowNum st row h
    unfold importar_ativos_row
    try dsimp only
    rw [if_pos h]
  · dsimp only
    decide
  · intro today st row h
    unfold importar_desligados_row
    try dsimp only
    rw [if_pos h]

/-- Witness for C9's amended `importar_ativos` clause at a concrete bad
row: the error message records file line 2 and the raw tax ID. -/
theorem C9_row_errors_amended_witness :
    importar_ativos_row validCompanyCodes 40 2
      (⟨[], [], [], [], 1, 1⟩, ⟨true, 0, 0, 0, []⟩)
      ⟨"123456789012", "X", "1", "", "", "", "", "106"⟩ =
      (⟨[], [], [], [], 1, 1⟩,
       ⟨true, 1, 0, 0, ["Linha 2: CPF invalido '123456789012'"]⟩) :=
  C9_row_errors_amended.1 validCompanyCodes 40 2
    (⟨[], [], [], [], 1, 1⟩, ⟨true, 0, 0, 0, []⟩)
    ⟨"123456789012", "X", "1", "", "", "", "", "106"⟩ (by decide)

/-- C8: `criar_alerta` with dedup is idempotent within a calendar day.
An unresolved alert of identical type and description created in today's
window is returned with no insertion. After a fresh insert, a same-day call
with the same type and description returns the very same alert and leaves
the table unchanged; a call on a different calendar day inserts a fresh
alert with a new id; and once the first alert is resolved, even a same-day
call inserts a new row. -/
theorem C8_alert_dedup :
    (∀ now (db : AlertDB) tipo descricao grav a,
        db.alertas.find? (fun x => decide (x.tipo = tipo ∧ x.descricao = descricao ∧
            inicioDia now ≤ x.data_alerta ∧ x.data_alerta < inicioDia now + 86400 ∧
            x.resolvido = false)) = some a →
        criar_alerta now db tipo descricao grav true = (a, db)) ∧
    (∀ now1 now2 (db : AlertDB) tipo descricao grav1 grav2,
        (∀ x ∈ db.alertas, ¬ (x.tipo = tipo ∧ x.descricao = descricao ∧ x.resolvido = false)) →
        (∀ x ∈ db.alertas, x.aid < db.nextAid) →
        (let a1 := freshAlerta now1 db tipo descricao grav1
         let db1 : AlertDB := { alertas := db.alertas ++ [a1], nextAid := db.nextAid + 1 }
         criar_alerta now1 db tipo descricao grav1 true = (a1, db1) ∧
         a1.aid = db.nextAid ∧ a1.tipo = tipo ∧ a1.descricao = descricao ∧
         a1.data_alerta = now1 ∧ a1.resolvido = false ∧
         (now2 / 86400 = now1 / 86400 →
           criar_alerta now2 db1 tipo descricao grav2 true = (a1, db1)) ∧
         (now2 / 86400 ≠ now1 / 86400 →
           (criar_alerta now2 db1 tipo descricao grav2 true).1.aid = db.nextAid + 1 ∧
           (criar_alerta now2 db1 tipo descricao grav2 true).2.alertas.length =
             db.alertas.length + 2) ∧
         (criar_alerta now2 (resolver_alerta db1 a1.aid) tipo descricao grav2 true).1.aid =
           db.nextAid + 1)) := by
  constructor
  · intro now db tipo descricao grav a hfind
    unfold criar_alerta
    dsimp only
    rw [hfind]
    rfl
  · intro now1 now2 db tipo descricao grav1 grav2 h1 h2
    dsimp only
    have hnone : ∀ (t : Nat),
        db.alertas.find? (fun x => decide (x.tipo = tipo ∧ x.descricao = descricao ∧
          inicioDia t ≤ x.data_alerta ∧ x.data_alerta < inicioDia t + 86400 ∧
          x.resolvido = false)) = none := by
      intro t
      refine List.find?_eq_none.mpr (fun x hx => ?_)
      simp only [decide_eq_true_eq]
      rintro ⟨ha, hb, -, -, hc⟩
      exact h1 x hx ⟨ha, hb, hc⟩
    refine ⟨criar_alerta_none (hnone now1), by trivial, by trivial, by trivial, by trivial,
      by trivial, ?_, ?_, ?_⟩
    · intro hday
      unfold criar_alerta
      dsimp only
      rw [List.find?_append, hnone now2, List.find?_cons]
      have hhit : (decide ((freshAlerta now1 db tipo descricao grav1).tipo = tipo ∧
          (freshAlerta now1 db tipo descricao grav1).descricao = descricao ∧
          inicioDia now2 ≤ (freshAlerta now1 db tipo descricao grav1).data_alerta ∧
          (freshAlerta now1 db tipo descricao grav1).data_alerta < inicioDia now2 + 86400 ∧
          (freshAlerta now1 db tipo descricao grav1).resolvido = false)) = true := by
        apply decide_eq_true
        refine ⟨rfl, rfl, ?_, ?_, rfl⟩
        · show (now2 / 86400) * 86400 ≤ now1
          omega
        · show now1 < (now2 / 86400) * 86400 + 86400
          omega
      rw [hhit]
      rfl
    · intro hday
      have hmiss : (decide ((freshAlerta now1 db tipo descricao grav1).tipo = tipo ∧
          (freshAlerta now1 db tipo descricao grav1).descricao = descricao ∧
          inicioDia now2 ≤ (freshAlerta now1 db tipo descricao grav1).data_alerta ∧
          (freshAlerta now1 db tipo descricao grav1).data_alerta < inicioDia now2 + 86400 ∧
          (freshAlerta now1 db tipo descricao grav1).resolvido = false)) = false := by
        apply decide_eq_false
        rintro ⟨-, -, hlo, hhi, -⟩
        have hlo' : (now2 / 86400) * 86400 ≤ now1 := hlo
        have hhi' : now1 < (now2 / 86400) * 86400 + 86400 := hhi
        omega
      have hn2 : ((⟨db.alertas ++ [freshAlerta now1 db tipo descricao grav1],
          db.nextAid + 1⟩ : AlertDB)).alertas.find?
            (fun x => decide (x.tipo = tipo ∧ x.descricao = descricao ∧
              inicioDia now2 ≤ x.data_alerta ∧ x.data_alerta < inicioDia now2 + 86400 ∧
              x.resolvido = false)) = none := by
        dsimp only
        rw [List.find?_append, hnone now2, List.find?_cons, hmiss]
        rfl
      rw [criar_alerta_none hn2]
      exact ⟨rfl, by simp⟩
    · have hn3 : ((resolver_alerta
          (⟨db.alertas ++ [freshAlerta now1 db tipo descricao grav1],
            db.nextAid + 1⟩ : AlertDB)
          (freshAlerta now1 db tipo descricao grav1).aid)).alertas.find?
            (fun x => decide (x.tipo = tipo ∧ x.descricao = descricao ∧
              inicioDia now2 ≤ x.data_alerta ∧ x.data_alerta < inicioDia now2 + 86400 ∧
              x.resolvido = false)) = none := by
        unfold resolver_alerta
        dsimp only
        refine List.find?_eq_none.mpr (fun y hy => ?_)
        obtain ⟨x, hx, rfl⟩ := List.mem_map.mp hy
        rcases List.mem_append.mp hx with hx | hx
        · rw [if_neg (show ¬ x.aid = (freshAlerta now1 db tipo descricao grav1).aid from
            Nat.ne_of_lt (h2 x hx))]
          simp only [decide_eq_true_eq]
          rintro ⟨ha, hb, -, -, hc⟩
          exact h1 x hx ⟨ha, hb, hc⟩
        · have hxe : x = freshAlerta now1 db tipo descricao grav1 := by simpa using hx
          subst hxe
          rw [if_pos rfl]
          simp
      rw [criar_alerta_none hn3]
      rfl

/-- Witness for C8: a fresh alert at time 50, deduplicated by an identical
call at time 100 of the same day, over the empty alert table. -/
theorem C8_alert_dedup_witness :
    criar_alerta 100 ((criar_alerta 50 ⟨[], 1⟩ "SISTEMA" "x" none true).2) "SISTEMA" "x"
        none true =
      ((criar_alerta 50 ⟨[], 1⟩ "SISTEMA" "x" none true).1,
       (criar_alerta 50 ⟨[], 1⟩ "SISTEMA" "x" none true).2) := by
  have h := (C8_alert_dedup.2 50 100 ⟨[], 1⟩ "SISTEMA" "x" none none
    (by intro x hx; exact absurd hx (List.not_mem_nil x))
    (by intro x hx; exact absurd hx (List.not_mem_nil x)))
  rw [h.1]
  exact h.2.2.2.2.2.2.1 rfl

end CIGestao

